import Mathlib

set_option maxRecDepth 100000

/-!
# Kavita-Uploader: verification of the move/duplicate/disk-guard pipeline

Shallow embedding of the parts of `backend/app` that the specification's
claims are about:

* `hashlib.sha256` (used via `utils.calculate_file_hash` with 4096-byte
  chunks and `MoverService.compute_file_hash` with 8192-byte chunks) is
  embedded as a full executable SHA-256 over byte lists (`sha256hex`);
* `DiskMonitor.check_disk_space_available` over exact rational arithmetic
  (Python floats are embedded as `ℚ`; the human-readable message strings are
  abbreviated to stable tags, the boolean verdict and the branch structure
  are verbatim);
* `MoverService.move_file` and its helpers (`check_duplicates_by_hash`,
  `check_duplicates_in_filesystem`, `check_name_conflict`,
  `generate_renamed_filename`, `verify_integrity`, `write_to_manifest`)
  as a function over an explicit database (list of upload rows), an explicit
  filesystem (finite map from path strings to byte lists, plus a directory
  set), a manifest (list of rows) and an environment of effect outcomes
  (copy corruption, I/O failures, the wall clock).  Exceptions are
  `Except.error`; Python dicts returned by `move_file` are a structure with
  optional fields.
-/

namespace KavitaUploader

/-! ## Bytes and chunked file reading

A file's content is a `List Nat` of byte values.  Python's
`while chunk := f.read(n)` / `iter(lambda: f.read(n), b"")` loops read
successive `n`-byte chunks until the empty read; `chunksOf n` produces that
chunk sequence (for `n = 0` Python's `read(0)` returns `b""` at once and the
loop body never runs). -/

def chunkGo (n : Nat) : List α → List α → Nat → List (List α)
  | [], acc, _ => if acc.isEmpty then [] else [acc.reverse]
  | a :: l, acc, 0 => acc.reverse :: chunkGo n l [a] (n - 1)
  | a :: l, acc, k + 1 => chunkGo n l (a :: acc) k

def chunksOf (n : Nat) (l : List α) : List (List α) :=
  match n with
  | 0 => []
  | k + 1 => chunkGo (k + 1) l [] (k + 1)

/-! ## SHA-256 (`hashlib.sha256`), FIPS 180-4 over `Nat` mod 2^32 -/

namespace Sha256

def w32 (x : Nat) : Nat := x % 4294967296

def rotr (n x : Nat) : Nat := w32 ((x >>> n) ||| (x <<< (32 - n)))

def bigSigma0 (x : Nat) : Nat := rotr 2 x ^^^ rotr 13 x ^^^ rotr 22 x
def bigSigma1 (x : Nat) : Nat := rotr 6 x ^^^ rotr 11 x ^^^ rotr 25 x
def smallSigma0 (x : Nat) : Nat := rotr 7 x ^^^ rotr 18 x ^^^ (x >>> 3)
def smallSigma1 (x : Nat) : Nat := rotr 17 x ^^^ rotr 19 x ^^^ (x >>> 10)

def ch (e f g : Nat) : Nat := (e &&& f) ^^^ ((e ^^^ 4294967295) &&& g)
def maj (a b c : Nat) : Nat := (a &&& b) ^^^ (a &&& c) ^^^ (b &&& c)

/-- The 64 round constants (fractional parts of the cube roots of the
first 64 primes), in decimal. -/
def K : List Nat :=
  [1116352408, 1899447441, 3049323471, 3921009573,
   961987163, 1508970993, 2453635748, 2870763221,
   3624381080, 310598401, 607225278, 1426881987,
   1925078388, 2162078206, 2614888103, 3248222580,
   3835390401, 4022224774, 264347078, 604807628,
   770255983, 1249150122, 1555081692, 1996064986,
   2554220882, 2821834349, 2952996808, 3210313671,
   3336571891, 3584528711, 113926993, 338241895,
   666307205, 773529912, 1294757372, 1396182291,
   1695183700, 1986661051, 2177026350, 2456956037,
   2730485921, 2820302411, 3259730800, 3345764771,
   3516065817, 3600352804, 4094571909, 275423344,
   430227734, 506948616, 659060556, 883997877,
   958139571, 1322822218, 1537002063, 1747873779,
   1955562222, 2024104815, 2227730452, 2361852424,
   2428436474, 2756734187, 3204031479, 3329325298]

/-- Working state / chaining value: eight 32-bit words. -/
structure Hs where
  a : Nat
  b : Nat
  c : Nat
  d : Nat
  e : Nat
  f : Nat
  g : Nat
  h : Nat
deriving Repr, DecidableEq

def initHs : Hs :=
  ⟨1779033703, 3144134277, 1013904242, 2773480762,
   1359893119, 2600822924, 528734635, 1541459225⟩

/-- One compression round; `kw` is the pair (round constant, schedule word). -/
def round (s : Hs) (kw : Nat × Nat) : Hs :=
  let t1 := w32 (s.h + bigSigma1 s.e + ch s.e s.f s.g + kw.1 + kw.2)
  let t2 := w32 (bigSigma0 s.a + maj s.a s.b s.c)
  ⟨w32 (t1 + t2), s.a, s.b, s.c, w32 (s.d + t1), s.e, s.f, s.g⟩

/-- Extend the message schedule by one word. -/
def extendOnce (w : List Nat) : List Nat :=
  w ++ [w32 (smallSigma1 (w.getD (w.length - 2) 0) + w.getD (w.length - 7) 0 +
             smallSigma0 (w.getD (w.length - 15) 0) + w.getD (w.length - 16) 0)]

/-- Extend the 16 block words to the 64 schedule words. -/
def scheduleW (w : List Nat) : List Nat := extendOnce^[48] w

/-- Compress one 16-word block into the chaining value. -/
def compressBlock (s : Hs) (block : List Nat) : Hs :=
  let t := (K.zip (scheduleW block)).foldl round s
  ⟨w32 (s.a + t.a), w32 (s.b + t.b), w32 (s.c + t.c), w32 (s.d + t.d),
   w32 (s.e + t.e), w32 (s.f + t.f), w32 (s.g + t.g), w32 (s.h + t.h)⟩

/-- Big-endian packing of bytes into 32-bit words (input length divisible
by 4 after padding; a trailing fragment shorter than 4 is dropped). -/
def toWords : List Nat → List Nat
  | b0 :: b1 :: b2 :: b3 :: rest =>
      w32 (b0 * 16777216 + b1 * 65536 + b2 * 256 + b3) :: toWords rest
  | _ => []

/-- The 8-byte big-endian encoding of the 64-bit message bit length. -/
def lenBytes (n : Nat) : List Nat :=
  [(n >>> 56) &&& 255, (n >>> 48) &&& 255, (n >>> 40) &&& 255,
   (n >>> 32) &&& 255, (n >>> 24) &&& 255, (n >>> 16) &&& 255,
   (n >>> 8) &&& 255, n &&& 255]

/-- FIPS 180-4 padding: 0x80, zeros to 56 mod 64, 64-bit bit length. -/
def padMessage (msg : List Nat) : List Nat :=
  msg ++ 0x80 :: List.replicate ((119 - msg.length % 64) % 64) 0 ++
    lenBytes ((8 * msg.length) % 18446744073709551616)

def digest (msg : List Nat) : Hs :=
  (chunksOf 16 (toWords (padMessage msg))).foldl compressBlock initHs

def hexDigit (n : Nat) : Char :=
  if n < 10 then Char.ofNat (48 + n) else Char.ofNat (87 + n)

/-- Eight lowercase hex characters of one 32-bit word, most significant
nibble first (the order `hexdigest` emits). -/
def hexWord (w : Nat) : String :=
  String.mk [hexDigit (w / 268435456 % 16), hexDigit (w / 16777216 % 16),
             hexDigit (w / 1048576 % 16), hexDigit (w / 65536 % 16),
             hexDigit (w / 4096 % 16), hexDigit (w / 256 % 16),
             hexDigit (w / 16 % 16), hexDigit (w % 16)]

end Sha256

/-- Model of `hashlib.sha256(msg).hexdigest()`: the 64-character lowercase hex digest
of a byte list. -/
def sha256hex (msg : List Nat) : String :=
  let d := Sha256.digest msg
  Sha256.hexWord d.a ++ Sha256.hexWord d.b ++ Sha256.hexWord d.c ++
  Sha256.hexWord d.d ++ Sha256.hexWord d.e ++ Sha256.hexWord d.f ++
  Sha256.hexWord d.g ++ Sha256.hexWord d.h

/-- SHA-256 of the empty input (checked against the published vector). -/
example : sha256hex [] =
    "e3b0c44298fc1c149afbf4c8996fb92427ae41e4649b934ca495991b7852b855" := by
  decide

/-- SHA-256 of `b"abc"` (checked against the published vector). -/
example : sha256hex [97, 98, 99] =
    "ba7816bf8f01cfea414140de5dae2223b00361a396177a9cb410ff61f20015ad" := by
  decide

/-- SHA-256 of a two-block message (201 bytes), checked against
`hashlib.sha256(b"a"*200 + b"b")`. -/
example : sha256hex (List.replicate 200 97 ++ [98]) =
    "830c8d218c20d17712120fd2d712d517fc63814d7836ac371f821a8ab0e64a66" := by
  decide

/-! ## The repository's two hashing entry points

`utils.calculate_file_hash` reads the file in 4096-byte chunks
(`iter(lambda: f.read(4096), b"")`), feeding each chunk to the running
`hashlib.sha256` object; `MoverService.compute_file_hash` does the same with
8192-byte chunks (`while chunk := f.read(8192)`).  A file is a named byte
sequence; both functions consume only the bytes. -/

structure PyFile where
  name : String
  bytes : List Nat
deriving Repr, DecidableEq

/-- The byte sequence the successive `update` calls accumulate. -/
def fedBytes (chunks : List (List Nat)) : List Nat := chunks.foldl (· ++ ·) []

/-- Model of `utils.calculate_file_hash`: SHA-256 fed in 4096-byte read chunks. -/
def calculate_file_hash (f : PyFile) : String :=
  sha256hex (fedBytes (chunksOf 4096 f.bytes))

namespace MoverService

/-- Model of `MoverService.compute_file_hash`: SHA-256 fed in 8192-byte read chunks. -/
def compute_file_hash (f : PyFile) : String :=
  sha256hex (fedBytes (chunksOf 8192 f.bytes))

end MoverService

theorem chunkGo_flatten (n : Nat) :
    ∀ (l acc : List α) (k : Nat),
      (chunkGo n l acc k).flatten = acc.reverse ++ l := by
  intro l
  induction l with
  | nil =>
    intro acc k
    by_cases h : acc.isEmpty
    · have hnil : acc = [] := List.isEmpty_iff.1 h
      simp [chunkGo, h, hnil]
    · simp [chunkGo, h]
  | cons a l ih =>
    intro acc k
    match k with
    | 0 => simp [chunkGo, ih]
    | k + 1 => simp [chunkGo, ih]

theorem chunksOf_flatten (n : Nat) (hn : n ≠ 0) (l : List α) :
    (chunksOf n l).flatten = l := by
  match n with
  | 0 => exact absurd rfl hn
  | k + 1 => simp [chunksOf, chunkGo_flatten]

theorem fedBytes_chunksOf (n : Nat) (hn : n ≠ 0) (l : List Nat) :
    fedBytes (chunksOf n l) = l := by
  have hfold : ∀ (L : List (List Nat)) (acc : List Nat),
      L.foldl (· ++ ·) acc = acc ++ L.flatten := by
    intro L
    induction L with
    | nil => simp
    | cons x L ih => intro acc; simp [ih]
  simp [fedBytes, hfold, chunksOf_flatten n hn]

theorem hexWord_length (w : Nat) : (Sha256.hexWord w).length = 8 := rfl

theorem sha256hex_length (msg : List Nat) : (sha256hex msg).length = 64 := by
  simp [sha256hex, String.length_append, hexWord_length]

/-- Claim C6. Hashing is deterministic and idempotent: both repository hash
functions are pure functions of the file's bytes alone (so re-hashing
unchanged bytes gives the same digest, and the name is irrelevant); the
4096-byte-chunk intake hash and the 8192-byte-chunk mover hash both equal
the SHA-256 of the whole byte sequence, hence agree with each other; and the
digest is always 64 hex characters. -/
theorem c6_hashing_deterministic_uniform (n₁ n₂ : String) (bs : List Nat) :
    calculate_file_hash ⟨n₁, bs⟩ = sha256hex bs ∧
    MoverService.compute_file_hash ⟨n₂, bs⟩ = sha256hex bs ∧
    calculate_file_hash ⟨n₁, bs⟩ = MoverService.compute_file_hash ⟨n₂, bs⟩ ∧
    (calculate_file_hash ⟨n₁, bs⟩).length = 64 := by
  have h1 : calculate_file_hash ⟨n₁, bs⟩ = sha256hex bs := by
    simp [calculate_file_hash, fedBytes_chunksOf 4096 (by decide) bs]
  have h2 : MoverService.compute_file_hash ⟨n₂, bs⟩ = sha256hex bs := by
    simp [MoverService.compute_file_hash, fedBytes_chunksOf 8192 (by decide) bs]
  exact ⟨h1, h2, h1.trans h2.symm, h1 ▸ sha256hex_length bs⟩

/-! ## Disk Guard: `DiskMonitor.check_disk_space_available`

The volume statistics (`shutil.disk_usage` readings) are inputs; Python
floats are embedded as `ℚ` (the config percentage and the computed
percentage), byte counts as `ℤ`.  The human-readable reason strings are
abbreviated to stable tags; the verdict and the check order are verbatim. -/

namespace DiskMonitor

structure DiskProtectionCfg where
  min_free_space_percent : ℚ
  reserve_space_bytes : ℤ
deriving Repr, DecidableEq

/-- The local `percent_free_after` computation:
`(free_after_upload / usage["total"] * 100) if usage["total"] > 0 else 0`. -/
def percentFreeAfter (total free required : ℤ) : ℚ :=
  if total > 0 then ((free - required : ℤ) : ℚ) / (total : ℚ) * 100 else 0

/-- Model of `DiskMonitor.check_disk_space_available(path, required_bytes,
min_free_percent)`; `total`/`free` are the volume statistics for `path`. -/
def check_disk_space_available (total free required : ℤ)
    (min_free_percent : Option ℚ) (cfg : DiskProtectionCfg) : Bool × String :=
  let minFree := min_free_percent.getD cfg.min_free_space_percent
  if free < required then
    (false, "insufficient_disk_space")
  else
    if percentFreeAfter total free required < minFree then
      (false, "below_min_free_percent")
    else if free - required < cfg.reserve_space_bytes then
      (false, "breaches_reserve")
    else
      (true, "")

end DiskMonitor

/-- Claim C5. The disk space check allows an upload exactly when all three
conditions hold — (1) free space at least the required bytes, (2) free space
after the upload at least the configured minimum percentage of capacity,
(3) free space after the upload at least the absolute reserve — and each of
the three conditions can fail alone, denying the upload on its own.
Conditions 1 and 3 are not independent for non-negative reserves: whenever
condition 1 fails, `free - required` is negative, so any reserve `≥ 0`
makes condition 3 fail too — the condition-1-fails-alone scenario therefore
requires a negative `reserve_space_bytes` (and a negative minimum
percentage), which `config.py` accepts, since it puts no lower bound on
either setting; this dependence is stated as the fifth conjunct.  Under
non-negative settings each check is still separately observable as *the*
check that denies the upload, reported with its own distinct reason (the
last three conjuncts, at realistic volume sizes). -/
theorem c5_disk_guard_three_independent_checks :
    (∀ (total free required : ℤ) (minp : Option ℚ)
       (cfg : DiskMonitor.DiskProtectionCfg),
      (DiskMonitor.check_disk_space_available total free required minp cfg).1
          = true ↔
        (required ≤ free ∧
         minp.getD cfg.min_free_space_percent ≤
           DiskMonitor.percentFreeAfter total free required ∧
         cfg.reserve_space_bytes ≤ free - required)) ∧
    (∃ (total free required : ℤ) (minp : Option ℚ)
       (cfg : DiskMonitor.DiskProtectionCfg),
      free < required ∧
      minp.getD cfg.min_free_space_percent ≤
        DiskMonitor.percentFreeAfter total free required ∧
      cfg.reserve_space_bytes ≤ free - required ∧
      (DiskMonitor.check_disk_space_available total free required minp cfg).1
          = false) ∧
    (∃ (total free required : ℤ) (minp : Option ℚ)
       (cfg : DiskMonitor.DiskProtectionCfg),
      required ≤ free ∧
      DiskMonitor.percentFreeAfter total free required <
        minp.getD cfg.min_free_space_percent ∧
      cfg.reserve_space_bytes ≤ free - required ∧
      (DiskMonitor.check_disk_space_available total free required minp cfg).1
          = false) ∧
    (∃ (total free required : ℤ) (minp : Option ℚ)
       (cfg : DiskMonitor.DiskProtectionCfg),
      required ≤ free ∧
      minp.getD cfg.min_free_space_percent ≤
        DiskMonitor.percentFreeAfter total free required ∧
      free - required < cfg.reserve_space_bytes ∧
      (DiskMonitor.check_disk_space_available total free required minp cfg).1
          = false) ∧
    (∀ (free required : ℤ) (cfg : DiskMonitor.DiskProtectionCfg),
      0 ≤ cfg.reserve_space_bytes → free < required →
      free - required < cfg.reserve_space_bytes) ∧
    (∃ (total free required : ℤ) (minp : Option ℚ)
       (cfg : DiskMonitor.DiskProtectionCfg),
      0 ≤ minp.getD cfg.min_free_space_percent ∧
      0 ≤ cfg.reserve_space_bytes ∧
      DiskMonitor.check_disk_space_available total free required minp cfg =
        (false, "insufficient_disk_space")) ∧
    (∃ (total free required : ℤ) (minp : Option ℚ)
       (cfg : DiskMonitor.DiskProtectionCfg),
      0 ≤ minp.getD cfg.min_free_space_percent ∧
      0 ≤ cfg.reserve_space_bytes ∧
      DiskMonitor.check_disk_space_available total free required minp cfg =
        (false, "below_min_free_percent")) ∧
    (∃ (total free required : ℤ) (minp : Option ℚ)
       (cfg : DiskMonitor.DiskProtectionCfg),
      0 ≤ minp.getD cfg.min_free_space_percent ∧
      0 ≤ cfg.reserve_space_bytes ∧
      DiskMonitor.check_disk_space_available total free required minp cfg =
        (false, "breaches_reserve")) := by
  refine ⟨?_, ?_, ?_, ?_, ?_, ?_, ?_, ?_⟩
  · intro total free required minp cfg
    simp only [DiskMonitor.check_disk_space_available]
    split_ifs with h1 h2 h3
    · simp only [Bool.false_eq_true, false_iff]
      rintro ⟨hA, -, -⟩
      exact absurd hA (not_le.2 h1)
    · simp only [Bool.false_eq_true, false_iff]
      rintro ⟨-, hB, -⟩
      exact absurd hB (not_le.2 h2)
    · simp only [Bool.false_eq_true, false_iff]
      rintro ⟨-, -, hC⟩
      exact absurd hC (not_le.2 h3)
    · exact iff_of_true rfl ⟨not_lt.1 h1, not_lt.1 h2, not_lt.1 h3⟩
  · refine ⟨100, 40, 50, some (-1000), ⟨0, -100⟩, by norm_num, ?_, by norm_num,
      by norm_num [DiskMonitor.check_disk_space_available]⟩
    norm_num [DiskMonitor.percentFreeAfter]
  · refine ⟨1000, 100, 50, some 10, ⟨0, 0⟩, by norm_num, ?_, by norm_num,
      by norm_num [DiskMonitor.check_disk_space_available,
        DiskMonitor.percentFreeAfter]⟩
    norm_num [DiskMonitor.percentFreeAfter]
  · refine ⟨1000, 100, 50, some 1, ⟨0, 60⟩, by norm_num, ?_, by norm_num,
      by norm_num [DiskMonitor.check_disk_space_available,
        DiskMonitor.percentFreeAfter]⟩
    norm_num [DiskMonitor.percentFreeAfter]
  · intro free required cfg hres hlt
    omega
  · exact ⟨1000000, 40, 50, some 10, ⟨10, 0⟩, by norm_num, by norm_num,
      by norm_num [DiskMonitor.check_disk_space_available]⟩
  · exact ⟨1000000000000, 50000000000, 1000000000, some 10,
      ⟨10, 1073741824⟩, by norm_num, by norm_num,
      by norm_num [DiskMonitor.check_disk_space_available,
        DiskMonitor.percentFreeAfter]⟩
  · exact ⟨10000000000, 1500000000, 600000000, some 5, ⟨5, 1073741824⟩,
      by norm_num, by norm_num,
      by norm_num [DiskMonitor.check_disk_space_available,
        DiskMonitor.percentFreeAfter]⟩

/-! ## Mover: data model

* `Upload` is one row of the uploads table (the fields the Mover touches).
  The stored `metadata_json` column is represented by its parse result:
  `none` = SQL NULL, `some none` = a string `json.loads` rejects,
  `some (some m)` = valid JSON whose `title`/`author` entries are `m`.
* `FS` is the filesystem: regular files as a path ↦ bytes association list
  plus a set of directories; paths are `/`-separated strings.
* `Env` carries the outcomes of the impure operations: what bytes a
  `shutil.copy2` actually deposits (`corrupt`, identity = faithful copy),
  one failure knob per raisable operation of `move_file` that is not
  guarded by the STEP 5 `try` block (record fetch, hash read, commits,
  duplicate query, name-conflict query, manifest writes, mkdir) plus one
  for the guarded move operations, the Kavita API answer, and the
  formatted wall-clock timestamp. -/

structure Meta where
  title : Option String
  author : Option String
deriving Repr, DecidableEq

structure Upload where
  uuid : String
  status : String
  quarantine_path : String
  file_hash_sha256 : Option String
  metadata_json : Option (Option Meta)
  original_filename : String
  file_extension : String
  is_duplicate : Bool
  duplicate_of : Option String
  duplicate_reason : Option String
  error_message : Option String
  final_path : Option String
  moved_at : Option String
  file_size : Nat
deriving Repr, DecidableEq

structure FS where
  files : List (String × List Nat)
  dirs : List String
deriving Repr, DecidableEq

def FS.readFile (fs : FS) (p : String) : Option (List Nat) :=
  fs.files.lookup p

def FS.pathExists (fs : FS) (p : String) : Bool :=
  (fs.files.lookup p).isSome || fs.dirs.contains p

def FS.writeFile (fs : FS) (p : String) (b : List Nat) : FS :=
  { fs with files := (p, b) :: fs.files.filter (fun q => q.1 != p) }

def FS.removeFile (fs : FS) (p : String) : FS :=
  { fs with files := fs.files.filter (fun q => q.1 != p) }

/-! Core `String` operations (`splitOn`, `trim`, `replace`, `isPrefixOf`,
`take`, `toLower`, `startsWith`) are position-based in Lean's library and do
not reduce inside the kernel, so the embedding re-implements the handful it
needs structurally over the character list (same semantics on our inputs). -/

/-- Split a character list at every occurrence of `c` (like
`str.split(c)` / `String.splitOn` for a one-character separator). -/
def splitCharList (c : Char) : List Char → List (List Char)
  | [] => [[]]
  | a :: rest =>
    if a == c then [] :: splitCharList c rest
    else
      match splitCharList c rest with
      | [] => [[a]]
      | g :: gs => (a :: g) :: gs

def splitOnChar (c : Char) (s : String) : List String :=
  (splitCharList c s.toList).map String.mk

/-- Join with a separator (`String.intercalate`). -/
def joinSep (sep : String) : List String → String
  | [] => ""
  | [x] => x
  | x :: xs => x ++ sep ++ joinSep sep xs

/-- Model of `p.isPrefixOf s` over characters. -/
def strIsPref (p s : String) : Bool := p.toList.isPrefixOf s.toList

/-- Replace every occurrence of `pat` (leftmost, non-overlapping), with the
scanned position as structural fuel. -/
def replaceGo (pat rep : List Char) : Nat → List Char → List Char
  | _, [] => []
  | 0, l => l
  | fuel + 1, a :: rest =>
    if !pat.isEmpty && pat.isPrefixOf (a :: rest) then
      rep ++ replaceGo pat rep fuel ((a :: rest).drop pat.length)
    else a :: replaceGo pat rep fuel rest

/-- Model of `str.replace(pat, rep)`. -/
def pyReplace (s pat rep : String) : String :=
  String.mk (replaceGo pat.toList rep.toList s.toList.length s.toList)

/-- All ancestor paths of `p`, shortest first (`"a/b/c"` ↦
`["a", "a/b", "a/b/c"]`). -/
def ancestors (p : String) : List String :=
  (((splitOnChar '/' p).inits.filter (fun l => !l.isEmpty)).map
    (joinSep "/"))

/-- Model of `Path.mkdir(parents=True, exist_ok=True)`. -/
def FS.mkdirParents (fs : FS) (p : String) : FS :=
  { fs with
    dirs := (ancestors p).foldl
      (fun ds d => if ds.contains d then ds else ds ++ [d]) fs.dirs }

/-- Model of `Path(p).parent`, as a string (`"."` when there is no directory part). -/
def parentDir (p : String) : String :=
  let parts := splitOnChar '/' p
  if parts.length ≤ 1 then "." else joinSep "/" parts.dropLast

/-- The final path component. -/
def baseName (p : String) : String := (splitOnChar '/' p).getLastD p

/-- Model of `Path(name).stem` and `Path(name).suffix` of a single component:
split at the last dot, except that a lone leading dot is not a suffix. -/
def splitStem (name : String) : String × String :=
  match splitOnChar '.' name with
  | [] => (name, "")
  | [_] => (name, "")
  | p :: ps =>
    if p == "" && ps.length == 1 then (name, "")
    else (joinSep "." ((p :: ps).dropLast),
          "." ++ (p :: ps).getLastD "")

/-- Python `str.strip()`: drop leading and trailing whitespace. -/
def pyStrip (s : String) : String :=
  String.mk
    (((s.toList.dropWhile Char.isWhitespace).reverse.dropWhile
      Char.isWhitespace).reverse)

/-- Python `str.lower()` (ASCII approximation). -/
def pyLower (s : String) : String := String.mk (s.toList.map Char.toLower)

/-- The "kept" status set used by both duplicate queries:
`["moved", "safe", "metadata_verified"]`. -/
def keptStatus (s : String) : Bool :=
  s == "moved" || s == "safe" || s == "metadata_verified"

/-- Model of `query.where(Upload.uuid != exclude_uuid)` (no filter when absent). -/
def excludeOk (exclude : Option String) (u : Upload) : Bool :=
  match exclude with
  | none => true
  | some e => u.uuid != e

namespace MoverService

/-- The rows the `check_duplicates_by_hash` query selects. -/
def dupQuery (file_hash : String) (exclude : Option String)
    (db : List Upload) : List Upload :=
  db.filter (fun u =>
    u.file_hash_sha256 == some file_hash && keptStatus u.status &&
    excludeOk exclude u)

/-- Model of `check_duplicates_by_hash`; `scalar_one_or_none()` raises
`MultipleResultsFound` when the query returns two or more rows. -/
def check_duplicates_by_hash (file_hash : String) (db : List Upload)
    (exclude : Option String) : Except String (Bool × Option Upload) :=
  match dupQuery file_hash exclude db with
  | [] => .ok (false, none)
  | [u] => .ok (true, some u)
  | _ => .error "MultipleResultsFound"

/-- Model of `os.walk` over one search directory: the regular files under it,
skipping dot-files; a missing directory is skipped with a warning. -/
def walkFiles (fs : FS) (d : String) : List (String × List Nat) :=
  if fs.pathExists d then
    fs.files.filter (fun q =>
      strIsPref (d ++ "/") q.1 && !(strIsPref "." (baseName q.1)))
  else []

/-- Model of `check_duplicates_in_filesystem`: hash every candidate, short-circuit on
the first match (per-file hashing failures are swallowed and skipped). -/
def check_duplicates_in_filesystem (file_hash : String)
    (search_dirs : List String) (fs : FS) : Bool × Option String :=
  match (search_dirs.flatMap (walkFiles fs)).find?
      (fun q => compute_file_hash ⟨q.1, q.2⟩ == file_hash) with
  | some q => (true, some q.1)
  | none => (false, none)

/-- The per-row comparison inside `check_name_conflict`'s loop; `title` and
`author` are already stripped.  A row whose stored JSON does not parse is
skipped (`except json.JSONDecodeError: continue`). -/
def nameMatches (title author : String) (u : Upload) : Bool :=
  match u.metadata_json with
  | some (some m) =>
      pyLower (pyStrip (m.title.getD "")) == pyLower title &&
      pyLower (pyStrip (m.author.getD "")) == pyLower author
  | _ => false

/-- Model of `json.loads(upload.metadata_json)`, as the Mover consumes it: `{}` when
the column is NULL or the stored string is not valid JSON. -/
def parsedMetadata (u : Upload) : Meta :=
  match u.metadata_json with
  | some (some m) => m
  | _ => ⟨none, none⟩

/-- Model of `check_name_conflict`. -/
def check_name_conflict (metadata : Meta) (db : List Upload)
    (exclude : Option String) : Bool × Option Upload :=
  let title := pyStrip (metadata.title.getD "")
  let author := pyStrip (metadata.author.getD "")
  if title == "" || author == "" then (false, none)
  else
    match (db.filter (fun u =>
        keptStatus u.status && u.metadata_json.isSome && excludeOk exclude u)
        ).find? (nameMatches title author) with
    | some u => (true, some u)
    | none => (false, none)

/-- The `sanitize` closure in `generate_renamed_filename`: drop the
characters `<>:"/\|?*`, strip, cap at 100 characters. -/
def sanitizeName (s : String) : String :=
  String.mk
    ((pyStrip (String.mk (s.toList.filter
      (fun c => !("<>:\"/\\|?*".toList.contains c))))).toList.take 100)

/-- Model of `pattern.format(title=…, author=…, timestamp=…, ext=…)` for patterns
built from those four placeholders. -/
def formatPattern (pattern title author timestamp ext : String) : String :=
  pyReplace (pyReplace (pyReplace (pyReplace pattern
    "{title}" title) "{author}" author) "{timestamp}" timestamp)
    "{ext}" ext

/-- Model of `generate_renamed_filename` (the timestamp string is the formatted
`datetime.utcnow()` supplied by the environment). -/
def generate_renamed_filename (metadata : Meta) (file_extension : String)
    (pattern : String) (timestampStr : String) : String :=
  formatPattern pattern
    (sanitizeName (pyStrip (metadata.title.getD "unknown")))
    (sanitizeName (pyStrip (metadata.author.getD "unknown")))
    timestampStr file_extension

/-- Model of `verify_integrity`: recompute the destination hash and compare. -/
def verify_integrity (f : PyFile) (expected_hash : String) : Bool × String :=
  let actual := compute_file_hash f
  (actual == expected_hash, actual)

end MoverService

/-- The `config.moving` flags and paths `move_file` consults. -/
structure MovingConfig where
  enabled : Bool
  unsorted_dir : String
  kavita_library_dirs : List String
  rename_on_name_conflict : Bool
  rename_pattern : String
  discard_on_exact_duplicate : Bool
  verify_integrity_post_move : Bool
  dry_run : Bool
  checksum_manifest : Bool
  atomic_operations : Bool
  cleanup_quarantine_on_success : Bool
deriving Repr, DecidableEq

structure Config where
  moving : MovingConfig
  kavita_enabled : Bool
deriving Repr, DecidableEq

/-- Outcomes of the impure operations during one `move_file` call.  Every
operation of `move_file` that can raise and is not inside the `try` block of
STEP 5 has its own failure knob, so each unguarded error path of the source
is present in the model. -/
structure Env where
  /-- the bytes `shutil.copy2` deposits at the destination, as a function of
  the source bytes (`id` = faithful copy; anything else = corruption between
  copy and verify) -/
  corrupt : List Nat → List Nat
  /-- the record-fetch query (line 288) raises -/
  dbFetchFails : Bool
  /-- the unguarded `compute_file_hash(source_path)` call (line 319) raises -/
  hashReadFails : Bool
  /-- a `db_session.commit()` raises (lines 320, 345, 409, 465, 551, 583
  and 600 — the one at 551 is inside the `try`, but the `except` handler
  then commits again at 583 and that re-raise escapes) -/
  dbCommitFails : Bool
  /-- the `check_duplicates_by_hash` database query (line 325) raises -/
  dbDupQueryFails : Bool
  /-- the `check_name_conflict` database query (line 137, reached from
  line 434) raises -/
  dbNameQueryFails : Bool
  /-- the manifest CSV write in `write_to_manifest` raises (only reachable
  when the manifest is enabled; lines 347, 411 and 603) -/
  manifestWriteFails : Bool
  /-- the destination `mkdir(parents=True)` (line 479) raises -/
  mkdirFails : Bool
  /-- the `os.replace`/`shutil.copy2`/`unlink` calls inside the `try` block
  raise (caught there) -/
  moveOpFails : Bool
  /-- Result of `kavita_api.get_library_paths()`: `none` = the call raised -/
  kavitaPaths : Option (List String)
  /-- Value of `datetime.utcnow()`, already formatted -/
  nowStr : String

/-- One row of the checksum manifest CSV. -/
structure ManifestEntry where
  timestamp : String
  uuid : String
  original_filename : String
  destination_path : String
  file_hash : Option String
  file_size : Nat
  action : String
  reason : String
deriving Repr, DecidableEq

/-- The dict `move_file` returns (absent keys are `none`). -/
structure MoveResult where
  success : Bool
  message : String
  status : String
  duplicate_of : Option String := none
  duplicate_reason : Option String := none
  duplicate_path : Option String := none
  source : Option String := none
  destination : Option String := none
  renamed : Option Bool := none
  expected_hash : Option String := none
  actual_hash : Option String := none
  original_name : Option String := none
deriving Repr, DecidableEq

/-- The state after a `move_file` call: its return value plus the updated
table, filesystem and manifest. -/
structure MoveOut where
  result : MoveResult
  db : List Upload
  fs : FS
  manifest : List ManifestEntry
deriving Repr, DecidableEq

/-- Commit a mutation of the row with the given uuid. -/
def updateRecord (db : List Upload) (uuid : String) (f : Upload → Upload) :
    List Upload :=
  db.map (fun u => if u.uuid == uuid then f u else u)

namespace MoverService

/-- Model of `write_to_manifest` (append-only; a no-op when the manifest is
disabled).  The CSV file I/O happens only when the manifest is enabled, so
only then can the write raise; a raise escapes the caller, since none of the
three call sites in `move_file` guards it. -/
def write_to_manifest (checksum_manifest wfails : Bool) (upload : Upload)
    (destination_path : Option String) (action : String)
    (reason : Option String) (manifest : List ManifestEntry)
    (nowStr : String) : Except String (List ManifestEntry) :=
  if checksum_manifest && wfails then .error "OSError writing manifest"
  else .ok (if checksum_manifest then
    manifest ++
      [{ timestamp := nowStr, uuid := upload.uuid,
         original_filename := upload.original_filename,
         destination_path := destination_path.getD "N/A",
         file_hash := upload.file_hash_sha256, file_size := upload.file_size,
         action := action, reason := reason.getD "" }]
    else manifest)

/-- STEP 2's search-directory list: the unsorted dir, then the Kavita
library paths (live API result when enabled and non-empty, otherwise the
configured fallback list). -/
def searchDirs (cfg : Config) (env : Env) : List String :=
  cfg.moving.unsorted_dir ::
    (if cfg.kavita_enabled then
       match env.kavitaPaths with
       | some ps => if ps.isEmpty then cfg.moving.kavita_library_dirs else ps
       | none => cfg.moving.kavita_library_dirs
     else cfg.moving.kavita_library_dirs)

/-- The `while destination_path.exists()` collision loop: append
`_1`, `_2`, … before the extension until the name is free.  The fuel bound
exceeds the number of existing entries, and the candidates are pairwise
distinct, so it never runs out. -/
def resolveDestGo (fs : FS) (dest_dir base_name suffix : String) :
    Nat → Nat → String
  | counter, 0 => dest_dir ++ "/" ++ base_name ++ "_" ++ toString counter
      ++ suffix
  | counter, fuel + 1 =>
    let cand := dest_dir ++ "/" ++ base_name ++ "_" ++ toString counter
      ++ suffix
    if fs.pathExists cand then
      resolveDestGo fs dest_dir base_name suffix (counter + 1) fuel
    else cand

/-- STEP 4's destination resolution under `dest_dir`. -/
def resolveDestination (fs : FS) (dest_dir filename : String) : String :=
  let dp := dest_dir ++ "/" ++ filename
  if !fs.pathExists dp then dp
  else
    let bs := splitStem filename
    resolveDestGo fs dest_dir bs.1 bs.2 1
      (fs.files.length + fs.dirs.length + 1)

/-- STEP 6 and STEP 7 after a successful physical move: set
`status=moved`, `final_path`, `moved_at` (plus the rename bookkeeping) and
append the manifest row.  The STEP 6 commit (line 600) and the STEP 7
manifest write (line 603) run after the `try` block, so their failures
escape `move_file`. -/
def finishMove (cfg : Config) (env : Env) (upload : Upload) (renamed : Bool)
    (destination_path : String) (db : List Upload) (fs : FS)
    (manifest : List ManifestEntry) : Except String MoveOut :=
  let upd : Upload → Upload := fun u =>
    let u1 := { u with
                       status := "moved",
                       final_path := some destination_path,
                       moved_at := some env.nowStr }
    if renamed then
      { u1 with
                is_duplicate := false,
                duplicate_reason := some "name_conflict_renamed" }
    else u1
  let upload1 := upd upload
  if env.dbCommitFails then .error "OperationalError on commit"
  else match write_to_manifest cfg.moving.checksum_manifest
      env.manifestWriteFails upload1
      (some destination_path) (if renamed then "renamed" else "moved")
      upload1.duplicate_reason manifest env.nowStr with
  | .error e => .error e
  | .ok manifest1 =>
    .ok { result := {
            success := true,
            message := "File moved successfully" ++
              (if renamed then " (renamed due to name conflict)" else ""),
            status := "moved", destination := some destination_path,
            renamed := some renamed,
            original_name := if renamed then some upload.original_filename
                             else none },
          db := updateRecord db upload.uuid upd,
          fs := fs,
          manifest := manifest1 }

/-- STEP 5, the `try` block of the physical move (lines 518–589), plus the
success continuation.  An exception raised inside the `try` is caught and
turned into `move_failed` — but the `except` handler itself commits
(line 583), and the integrity-rollback commit (line 551) sits inside the
`try`, so when commits fail the handler re-raises and the exception escapes;
the atomic branch is taken exactly when `atomic_operations` is on and the
two `Path.parent`s are equal; the copy branch deposits `env.corrupt
srcBytes`, then verifies and rolls back on mismatch, then deletes the
quarantine copy only when configured to. -/
def physicalMove (cfg : Config) (env : Env) (upload : Upload)
    (file_hash : String) (srcBytes : List Nat)
    (source_path destination_path : String) (renamed : Bool)
    (db : List Upload) (fs : FS) (manifest : List ManifestEntry) :
    Except String MoveOut :=
  if env.moveOpFails then
    if env.dbCommitFails then .error "OperationalError on commit"
    else
    .ok { result := {
            success := false,
            message := "Failed to move file: OSError",
            status := "move_failed" },
          db := updateRecord db upload.uuid (fun u =>
            { u with
          status := "move_failed", error_message := some "OSError" }),
          fs := fs, manifest := manifest }
  else if cfg.moving.atomic_operations &&
      parentDir source_path == parentDir destination_path then
    finishMove cfg env upload renamed destination_path db
      ((fs.removeFile source_path).writeFile destination_path srcBytes)
      manifest
  else
    let destBytes := env.corrupt srcBytes
    let fs1 := fs.writeFile destination_path destBytes
    if cfg.moving.verify_integrity_post_move &&
        !(verify_integrity ⟨destination_path, destBytes⟩ file_hash).1 then
      if env.dbCommitFails then .error "OperationalError on commit"
      else
      .ok { result := {
              success := false,
              message := "Integrity check failed - file may be corrupted",
              status := "integrity_failed",
              expected_hash := some file_hash,
              actual_hash :=
                some (verify_integrity ⟨destination_path, destBytes⟩
                  file_hash).2 },
            db := updateRecord db upload.uuid (fun u =>
              { u with
                       status := "move_failed",
                       error_message :=
                         some "Integrity check failed after move" }),
            fs := fs1.removeFile destination_path, manifest := manifest }
    else
      finishMove cfg env upload renamed destination_path db
        (if cfg.moving.cleanup_quarantine_on_success then
           fs1.removeFile source_path
         else fs1)
        manifest

/-- STEP 2 through STEP 7 of `move_file` (everything after the database
exact-duplicate gate).  The operations of this region that raise and are not
guarded by the STEP 5 `try` are the STEP 2/STEP 3 commits (lines 409 and
465), the STEP 2 manifest write (line 411), the STEP 3 name-conflict
database query (line 137, called at line 434), the STEP 4
`mkdir(parents=True)` (line 479), and the unguarded parts of
`physicalMove`; all of them escape as `Except.error`. -/
def moveSteps2to7 (cfg : Config) (env : Env) (upload1 : Upload)
    (file_hash : String) (srcBytes : List Nat) (db1 : List Upload) (fs : FS)
    (manifest : List ManifestEntry) (upload_uuid : String) :
    Except String MoveOut :=
  -- STEP 2: exact hash duplicates in the filesystem trees
  let fsDup := check_duplicates_in_filesystem file_hash
    (searchDirs cfg env) fs
  if fsDup.1 && cfg.moving.discard_on_exact_duplicate then
    let path := fsDup.2.getD ""
    let upd : Upload → Upload := fun u =>
      { u with
               status := "duplicate_discarded",
               is_duplicate := true,
               duplicate_reason :=
                 some ("exact_hash_match_filesystem:" ++ path) }
    if env.dbCommitFails then .error "OperationalError on commit"
    else match write_to_manifest cfg.moving.checksum_manifest
        env.manifestWriteFails
        (upd upload1) none "discarded"
        (some "exact_hash_match_filesystem") manifest env.nowStr with
    | .error e => .error e
    | .ok manifest1 =>
      .ok { result := {
              success := false,
              message := "Duplicate file (exact hash match in filesystem)",
              status := "duplicate_discarded",
              duplicate_path := some path,
              duplicate_reason := some "exact_hash_match_filesystem" },
            db := updateRecord db1 upload_uuid upd,
            fs := fs,
            manifest := manifest1 }
  else
  -- STEP 3: name conflicts (same title/author, different hash); the
  -- database query inside check_name_conflict is unguarded
  if env.dbNameQueryFails then .error "OperationalError in name query"
  else
  let metadata := parsedMetadata upload1
  let conflict := check_name_conflict metadata db1 (some upload_uuid)
  if conflict.1 && !cfg.moving.rename_on_name_conflict then
    let upd : Upload → Upload := fun u =>
      { u with
               status := "duplicate_discarded",
               is_duplicate := true,
               duplicate_of := (conflict.2).map Upload.uuid,
               duplicate_reason := some "name_conflict_rename_disabled" }
    if env.dbCommitFails then .error "OperationalError on commit"
    else
    .ok { result := {
            success := false,
            message := "Name conflict detected but renaming is disabled",
            status := "duplicate_discarded",
            duplicate_reason := some "name_conflict_rename_disabled" },
          db := updateRecord db1 upload_uuid upd,
          fs := fs, manifest := manifest }
  else
  let renamed := conflict.1 && cfg.moving.rename_on_name_conflict
  let filename :=
    if renamed then
      generate_renamed_filename metadata upload1.file_extension
        cfg.moving.rename_pattern env.nowStr
    else upload1.original_filename
  -- STEP 4: destination directory and collision-free filename; the mkdir
  -- is unguarded (the chmod after it has its own try/except)
  if env.mkdirFails then .error "OSError in mkdir"
  else
  let dest_dir := cfg.moving.unsorted_dir ++ "/processed"
  let fs1 := fs.mkdirParents dest_dir
  let destination_path := resolveDestination fs1 dest_dir filename
  let source_path := upload1.quarantine_path
  -- dry-run short-circuit
  if cfg.moving.dry_run then
    .ok { result := {
            success := true,
            message :=
              "DRY RUN: File would be moved (no actual changes made)",
            status := "dry_run",
            source := some source_path,
            destination := some destination_path,
            renamed := some renamed },
          db := db1, fs := fs1, manifest := manifest }
  else
    -- STEP 5–7: physical move, record update, manifest
    physicalMove cfg env upload1 file_hash srcBytes source_path
      destination_path renamed db1 fs1 manifest

/-- Model of `MoverService.move_file`.  `Except.error` is an exception escaping the
function; `Except.ok` is its structured result dict together with the
updated table, filesystem and manifest.  Every raisable operation outside
the STEP 5 `try` block has its own failure knob in `Env` and surfaces here
as `Except.error`: the record-fetch query (line 288), the hash backfill and
its commit (lines 318–320), the duplicate query (line 325, also the
multiple-rows raise of `scalar_one_or_none`), the discard-branch commits and
manifest writes (lines 345/347, 409/411, 465), the name-conflict query
(line 137 via 434), the destination mkdir (line 479), and the STEP 6/7
commit and manifest write (lines 600/603). -/
def move_file (cfg : Config) (env : Env) (db : List Upload) (fs : FS)
    (manifest : List ManifestEntry) (upload_uuid : String) :
    Except String MoveOut :=
  if !cfg.moving.enabled then
    .ok { result := {
            success := false,
            message := "Moving is disabled in configuration",
            status := "disabled" },
          db := db, fs := fs, manifest := manifest }
  -- the record-fetch query (line 288) is unguarded
  else if env.dbFetchFails then .error "OperationalError in record fetch"
  else match db.find? (fun u => u.uuid == upload_uuid) with
  | none =>
    .ok { result := {
            success := false, message := "Upload not found",
            status := "not_found" },
          db := db, fs := fs, manifest := manifest }
  | some upload0 =>
    if !(upload0.status == "metadata_verified" || upload0.status == "safe" ||
         upload0.status == "clean") then
      .ok { result := {
              success := false,
              message := "File must be verified before moving " ++
                "(current status: " ++ upload0.status ++ ")",
              status := "invalid_state" },
            db := db, fs := fs, manifest := manifest }
    else match fs.readFile upload0.quarantine_path with
    | none =>
      .ok { result := {
              success := false,
              message := "Source file not found in quarantine",
              status := "source_missing" },
            db := db, fs := fs, manifest := manifest }
    | some srcBytes =>
      -- hash backfill: the read (line 319) and the commit (line 320) run
      -- outside any try/except, so a failure here propagates out
      let hashRes : Except String (String × Upload × List Upload) :=
        match upload0.file_hash_sha256 with
        | some h => .ok (h, upload0, db)
        | none =>
          if env.hashReadFails then .error "OSError while hashing source"
          else if env.dbCommitFails then .error "OperationalError on commit"
          else
            let h := compute_file_hash ⟨upload0.quarantine_path, srcBytes⟩
            .ok (h, { upload0 with
                 file_hash_sha256 := some h },
                 updateRecord db upload_uuid (fun u =>
                   { u with
      file_hash_sha256 := some h }))
      match hashRes with
      | .error e => .error e
      | .ok (file_hash, upload1, db1) =>
        -- STEP 1: exact hash duplicates in the database (query unguarded)
        if env.dbDupQueryFails then .error "OperationalError in dup query"
        else match check_duplicates_by_hash file_hash db1
            (some upload_uuid) with
        | .error e => .error e
        | .ok dbDup =>
          if dbDup.1 && cfg.moving.discard_on_exact_duplicate then
            match dbDup.2 with
            | some d =>
              let upd : Upload → Upload := fun u =>
                { u with
                         status := "duplicate_discarded",
                         is_duplicate := true,
                         duplicate_of := some d.uuid,
                         duplicate_reason :=
                           some "exact_hash_match_database" }
              if env.dbCommitFails then .error "OperationalError on commit"
              else match write_to_manifest
                  cfg.moving.checksum_manifest env.manifestWriteFails
                  (upd upload1) none
                  "discarded" (some "exact_hash_match_database")
                  manifest env.nowStr with
              | .error e => .error e
              | .ok manifest1 =>
                .ok { result := {
                        success := false,
                        message :=
                          "Duplicate file (exact hash match in database)",
                        status := "duplicate_discarded",
                        duplicate_of := some d.uuid,
                        duplicate_reason :=
                          some "exact_hash_match_database" },
                      db := updateRecord db1 upload_uuid upd,
                      fs := fs,
                      manifest := manifest1 }
            | none =>
              .error "unreachable: duplicate flag without a row"
          else
          moveSteps2to7 cfg env upload1 file_hash srcBytes db1 fs
            manifest upload_uuid

end MoverService

/-! ## Concrete fixtures used by the witnesses and counterexamples -/

/-- Default-flag configuration (`config.py` defaults), staging root `lib`. -/
def cfgBase : Config :=
  { moving :=
    { enabled := true, unsorted_dir := "lib",
      kavita_library_dirs := [],
      rename_on_name_conflict := true,
      rename_pattern := "{title} - {author} (duplicate_{timestamp}){ext}",
      discard_on_exact_duplicate := true,
      verify_integrity_post_move := true,
      dry_run := false, checksum_manifest := true,
      atomic_operations := true, cleanup_quarantine_on_success := true },
    kavita_enabled := false }

/-- Failure-free environment with a faithful copy operation. -/
def envBase : Env :=
  { corrupt := id, dbFetchFails := false, hashReadFails := false,
    dbCommitFails := false, dbDupQueryFails := false,
    dbNameQueryFails := false, manifestWriteFails := false,
    mkdirFails := false, moveOpFails := false, kavitaPaths := none,
    nowStr := "20260101_000000" }

/-- A verified upload whose quarantine file holds the byte `1`. -/
def uploadBase : Upload :=
  { uuid := "u1", status := "metadata_verified",
    quarantine_path := "q/u1.epub",
    file_hash_sha256 := some (sha256hex [1]), metadata_json := none,
    original_filename := "book.epub", file_extension := "epub",
    is_duplicate := false, duplicate_of := none, duplicate_reason := none,
    error_message := none, final_path := none, moved_at := none,
    file_size := 1 }

/-- Quarantine holding `uploadBase`'s file; empty staging root. -/
def fsBase : FS := { files := [("q/u1.epub", [1])], dirs := ["q", "lib"] }

/-! ## Theorems for the claims -/

theorem lookup_filter_ne (files : List (String × List Nat)) {p q : String}
    (h : q ≠ p) :
    (files.filter (fun x => x.1 != p)).lookup q = files.lookup q := by
  induction files with
  | nil => simp
  | cons a l ih =>
    obtain ⟨k, v⟩ := a
    by_cases hkp : k = p
    · subst hkp
      have hq : (q == k) = false := beq_eq_false_iff_ne.mpr h
      simp [List.filter_cons, List.lookup, hq, ih]
    · have hb : (k != p) = true := bne_iff_ne.mpr hkp
      cases hqk : q == k <;>
        simp [List.filter_cons, hb, List.lookup, hqk, ih]

theorem lookup_filter_self (files : List (String × List Nat)) (p : String) :
    (files.filter (fun x => x.1 != p)).lookup p = none := by
  induction files with
  | nil => simp
  | cons a l ih =>
    obtain ⟨k, v⟩ := a
    by_cases hkp : k = p
    · subst hkp
      simp [List.filter_cons, ih]
    · have hb : (k != p) = true := bne_iff_ne.mpr hkp
      have hq : (p == k) = false :=
        beq_eq_false_iff_ne.mpr (fun e => hkp e.symm)
      simp [List.filter_cons, hb, List.lookup, hq, ih]

theorem readFile_writeFile_same (fs : FS) (p : String) (b : List Nat) :
    (fs.writeFile p b).readFile p = some b := by
  simp [FS.writeFile, FS.readFile, List.lookup]

theorem readFile_writeFile_ne (fs : FS) {p q : String} (b : List Nat)
    (h : q ≠ p) : (fs.writeFile p b).readFile q = fs.readFile q := by
  have hq : (q == p) = false := beq_eq_false_iff_ne.mpr h
  simp [FS.writeFile, FS.readFile, List.lookup, hq, lookup_filter_ne _ h]

theorem readFile_removeFile_same (fs : FS) (p : String) :
    (fs.removeFile p).readFile p = none := by
  simp [FS.removeFile, FS.readFile, lookup_filter_self]

theorem readFile_removeFile_ne (fs : FS) {p q : String} (h : q ≠ p) :
    (fs.removeFile p).readFile q = fs.readFile q := by
  simp [FS.removeFile, FS.readFile, lookup_filter_ne _ h]

theorem finishMove_fs (cfg : Config) (env : Env) (u : Upload)
    (renamed : Bool) (dp : String) (db : List Upload) (fs : FS)
    (manifest : List ManifestEntry) (mo : MoveOut)
    (hmo : MoverService.finishMove cfg env u renamed dp db fs manifest =
      .ok mo) : mo.fs = fs := by
  simp only [MoverService.finishMove] at hmo
  split at hmo
  · cases hmo
  · split at hmo
    · cases hmo
    · cases hmo
      rfl

theorem finishMove_status (cfg : Config) (env : Env) (u : Upload)
    (renamed : Bool) (dp : String) (db : List Upload) (fs : FS)
    (manifest : List ManifestEntry) (mo : MoveOut)
    (hmo : MoverService.finishMove cfg env u renamed dp db fs manifest =
      .ok mo) : mo.result.status = "moved" := by
  simp only [MoverService.finishMove] at hmo
  split at hmo
  · cases hmo
  · split at hmo
    · cases hmo
    · cases hmo
      rfl

theorem finishMove_ok (cfg : Config) (env : Env) (u : Upload)
    (renamed : Bool) (dp : String) (db : List Upload) (fs : FS)
    (manifest : List ManifestEntry)
    (hc : env.dbCommitFails = false) (hm : env.manifestWriteFails = false) :
    ∃ mo, MoverService.finishMove cfg env u renamed dp db fs manifest =
      .ok mo := by
  simp only [MoverService.finishMove, hc, Bool.false_eq_true, if_false,
    MoverService.write_to_manifest, hm, Bool.and_false]
  exact ⟨_, rfl⟩

theorem physicalMove_ok (cfg : Config) (env : Env) (u : Upload)
    (h : String) (bs : List Nat) (src dp : String) (renamed : Bool)
    (db : List Upload) (fs : FS) (manifest : List ManifestEntry)
    (hc : env.dbCommitFails = false) (hm : env.manifestWriteFails = false) :
    ∃ mo, MoverService.physicalMove cfg env u h bs src dp renamed db fs
      manifest = .ok mo := by
  simp only [MoverService.physicalMove, hc, Bool.false_eq_true, if_false]
  split
  · exact ⟨_, rfl⟩
  · split
    · exact finishMove_ok _ _ _ _ _ _ _ _ hc hm
    · split
      · exact ⟨_, rfl⟩
      · exact finishMove_ok _ _ _ _ _ _ _ _ hc hm

theorem moveSteps2to7_ok (cfg : Config) (env : Env) (u1 : Upload)
    (fh : String) (bs : List Nat) (db1 : List Upload) (fs : FS)
    (manifest : List ManifestEntry) (uuid : String)
    (hc : env.dbCommitFails = false) (hm : env.manifestWriteFails = false)
    (hnq : env.dbNameQueryFails = false) (hmk : env.mkdirFails = false) :
    ∃ mo, MoverService.moveSteps2to7 cfg env u1 fh bs db1 fs manifest uuid =
      .ok mo := by
  simp only [MoverService.moveSteps2to7, hc, hnq, hmk, Bool.false_eq_true,
    if_false, MoverService.write_to_manifest, hm, Bool.and_false]
  split
  · exact ⟨_, rfl⟩
  · split
    · exact ⟨_, rfl⟩
    · split
      · exact ⟨_, rfl⟩
      · exact physicalMove_ok _ _ _ _ _ _ _ _ _ _ _ hc hm

/-- The fields the hash backfill may not touch: everything of the row except
`file_hash_sha256`. -/
def terminalFields (u : Upload) :
    String × String × String × Option (Option Meta) × String × String ×
      Bool × Option String × Option String × Option String ×
      Option String × Option String × Int :=
  (u.uuid, u.status, u.quarantine_path, u.metadata_json,
   u.original_filename, u.file_extension, u.is_duplicate, u.duplicate_of,
   u.duplicate_reason, u.error_message, u.final_path, u.moved_at,
   u.file_size)

theorem terminalFields_updateRecord (db : List Upload) (uuid : String)
    (f : Upload → Upload)
    (hf : ∀ v, terminalFields (f v) = terminalFields v) :
    (updateRecord db uuid f).map terminalFields = db.map terminalFields := by
  induction db with
  | nil => rfl
  | cons v l ih =>
    simp only [updateRecord, List.map_cons] at ih ⊢
    by_cases hv : v.uuid = uuid
    · have hv' : (v.uuid == uuid) = true := beq_iff_eq.mpr hv
      simp only [hv', if_true, hf v, ih]
    · have hv' : (v.uuid == uuid) = false := beq_eq_false_iff_ne.mpr hv
      simp only [hv', Bool.false_eq_true, if_false, ih]

/-- Updating only the moving record's own row does not change the
name-conflict check: the query excludes that record's uuid, and every other
row is untouched by `updateRecord`. -/
theorem nameConflict_updateRecord_self (m : Meta) (uuid : String)
    (db : List Upload) (f : Upload → Upload)
    (hfu : ∀ v, (f v).uuid = v.uuid) :
    MoverService.check_name_conflict m (updateRecord db uuid f)
        (some uuid) =
      MoverService.check_name_conflict m db (some uuid) := by
  have hfilter : (updateRecord db uuid f).filter (fun v =>
      keptStatus v.status && v.metadata_json.isSome &&
        excludeOk (some uuid) v) =
      db.filter (fun v =>
        keptStatus v.status && v.metadata_json.isSome &&
          excludeOk (some uuid) v) := by
    induction db with
    | nil => rfl
    | cons v l ih =>
      simp only [updateRecord, List.map_cons] at ih ⊢
      by_cases hv : v.uuid = uuid
      · have hv' : (v.uuid == uuid) = true := beq_iff_eq.mpr hv
        have hex1 : excludeOk (some uuid) (f v) = false := by
          simp [excludeOk, hfu v, hv]
        have hex2 : excludeOk (some uuid) v = false := by
          simp [excludeOk, hv]
        simp only [List.filter_cons, hv', if_true, hex1, hex2,
          Bool.and_false, Bool.false_eq_true, if_false] at ih ⊢
        exact ih
      · have hv' : (v.uuid == uuid) = false := beq_eq_false_iff_ne.mpr hv
        have hhead : (if (v.uuid == uuid) = true then f v else v) = v := by
          rw [hv']
          simp
        simp only [List.filter_cons] at ih ⊢
        rw [hhead]
        cases hp : (keptStatus v.status && v.metadata_json.isSome &&
            excludeOk (some uuid) v)
        · simp only [hp, Bool.false_eq_true, if_false]
          exact ih
        · simp only [hp, if_true]
          rw [ih]
  simp only [MoverService.check_name_conflict, hfilter]

/-- The content hash `move_file` resolves for a record: the stored hash, or
— when the column is still NULL — the hash of the quarantine bytes. -/
def effectiveFileHash (u : Upload) (bs : List Nat) : String :=
  match u.file_hash_sha256 with
  | some h => h
  | none => MoverService.compute_file_hash ⟨u.quarantine_path, bs⟩

/-- Backfilling the moving record's own hash does not change the duplicate
query, which excludes that record's uuid. -/
theorem dupQuery_updateRecord_self (h uuid : String) (db : List Upload)
    (f : Upload → Upload) (hf : ∀ v, (f v).uuid = v.uuid) :
    MoverService.dupQuery h (some uuid) (updateRecord db uuid f) =
      MoverService.dupQuery h (some uuid) db := by
  induction db with
  | nil => rfl
  | cons v l ih =>
    simp only [updateRecord, List.map_cons] at ih ⊢
    by_cases hv : v.uuid = uuid
    · have hv' : (v.uuid == uuid) = true := beq_iff_eq.mpr hv
      have hex1 : excludeOk (some uuid) (f v) = false := by
        simp [excludeOk, hf v, hv]
      have hex2 : excludeOk (some uuid) v = false := by
        simp [excludeOk, hv]
      simp only [MoverService.dupQuery, List.filter_cons, hv', if_true,
        hex1, hex2, Bool.and_false, Bool.false_eq_true, if_false] at ih ⊢
      exact ih
    · have hv' : (v.uuid == uuid) = false := beq_eq_false_iff_ne.mpr hv
      have hhead : (if (v.uuid == uuid) = true then f v else v) = v := by
        rw [hv']
        simp
      simp only [MoverService.dupQuery, List.filter_cons] at ih ⊢
      rw [hhead]
      cases hp : (v.file_hash_sha256 == some h && keptStatus v.status &&
          excludeOk (some uuid) v)
      · simp only [hp, Bool.false_eq_true, if_false]
        exact ih
      · simp only [hp, if_true]
        rw [ih]


/-- Claim C1. On a copy-then-verify move where the destination's recomputed
hash mismatches the recorded hash: the corrupt destination copy is deleted,
the quarantine source still holds its original bytes (hence is still
hash-valid when it was before), the row becomes `move_failed` with the
integrity error recorded, and the call reports `integrity_failed` with both
hashes.  Moreover,
across *all* physical-move executions that return a structured result, the
source's data is destroyed (source gone and its bytes not at the
destination) only when cleanup-on-success is enabled and verification
passed or was disabled. -/
theorem c1_integrity_failure_no_data_loss (cfg : Config) (env : Env)
    (u : Upload) (h : String) (srcBytes : List Nat) (src dest : String)
    (renamed : Bool) (db : List Upload) (fs : FS)
    (manifest : List ManifestEntry) (out : MoveOut)
    (hout : MoverService.physicalMove cfg env u h srcBytes src dest renamed
      db fs manifest = .ok out)
    (hsrc : fs.readFile src = some srcBytes)
    (hne : src ≠ dest) :
    ((cfg.moving.atomic_operations &&
        (parentDir src == parentDir dest)) = false →
      env.moveOpFails = false →
      cfg.moving.verify_integrity_post_move = true →
      MoverService.compute_file_hash ⟨dest, env.corrupt srcBytes⟩ ≠ h →
      out.result.status = "integrity_failed" ∧
      out.result.success = false ∧
      out.result.expected_hash = some h ∧
      out.result.actual_hash =
        some (MoverService.compute_file_hash ⟨dest, env.corrupt srcBytes⟩) ∧
      out.fs.readFile dest = none ∧
      out.fs.readFile src = some srcBytes ∧
      out.db = updateRecord db u.uuid (fun v =>
        { v with
          status := "move_failed",
          error_message := some "Integrity check failed after move" })) ∧
    (out.fs.readFile src = none →
      out.fs.readFile dest ≠ some srcBytes →
      cfg.moving.cleanup_quarantine_on_success = true ∧
      (cfg.moving.verify_integrity_post_move = true →
        MoverService.compute_file_hash ⟨dest, env.corrupt srcBytes⟩ = h)) := by
  constructor
  · intro hbr hop hverify hmis
    by_cases hcf : env.dbCommitFails
    · simp only [MoverService.physicalMove, hop, Bool.false_eq_true,
        if_false, hbr, MoverService.verify_integrity, hverify,
        beq_eq_false_iff_ne.mpr hmis, Bool.not_false, Bool.and_self,
        if_true, hcf] at hout
      cases hout
    · have hcf' : env.dbCommitFails = false := Bool.eq_false_iff.mpr hcf
      have hd : ((fs.writeFile dest (env.corrupt srcBytes)).removeFile
          dest).readFile dest = none := readFile_removeFile_same _ _
      have hs : ((fs.writeFile dest (env.corrupt srcBytes)).removeFile
          dest).readFile src = some srcBytes := by
        rw [readFile_removeFile_ne _ hne, readFile_writeFile_ne _ _ hne]
        exact hsrc
      simp only [MoverService.physicalMove, hop, Bool.false_eq_true,
        if_false, hbr, MoverService.verify_integrity, hverify,
        beq_eq_false_iff_ne.mpr hmis, Bool.not_false, Bool.and_self,
        if_true, hcf'] at hout
      cases hout
      refine ⟨?_, ?_, ?_, ?_, ?_, ?_, ?_⟩ <;> first | assumption | trivial
  · intro hgone hnotdest
    by_cases hop : env.moveOpFails
    · by_cases hcf : env.dbCommitFails
      · simp only [MoverService.physicalMove, hop, if_true, hcf] at hout
        cases hout
      · have hcf' : env.dbCommitFails = false := Bool.eq_false_iff.mpr hcf
        simp only [MoverService.physicalMove, hop, if_true, hcf',
          Bool.false_eq_true, if_false] at hout
        cases hout
        exfalso
        have hg : fs.readFile src = none := hgone
        rw [hsrc] at hg
        cases hg
    · by_cases hat : (cfg.moving.atomic_operations &&
          (parentDir src == parentDir dest)) = true
      · simp only [MoverService.physicalMove, hop, Bool.false_eq_true,
          if_false, hat, if_true] at hout
        have hfs2 := finishMove_fs _ _ _ _ _ _ _ _ _ hout
        exfalso
        rw [hfs2] at hnotdest
        exact hnotdest (readFile_writeFile_same _ _ _)
      · have hat' : (cfg.moving.atomic_operations &&
            (parentDir src == parentDir dest)) = false :=
          Bool.eq_false_iff.mpr hat
        by_cases hv : (cfg.moving.verify_integrity_post_move &&
            !(MoverService.verify_integrity
              ⟨dest, env.corrupt srcBytes⟩ h).1) = true
        · by_cases hcf : env.dbCommitFails
          · simp only [MoverService.physicalMove, hop, Bool.false_eq_true,
              if_false, hat', hv, if_true, hcf] at hout
            cases hout
          · have hcf' : env.dbCommitFails = false :=
              Bool.eq_false_iff.mpr hcf
            simp only [MoverService.physicalMove, hop, Bool.false_eq_true,
              if_false, hat', hv, if_true, hcf'] at hout
            cases hout
            exfalso
            have hg : ((fs.writeFile dest
                (env.corrupt srcBytes)).removeFile dest).readFile src =
                none := hgone
            rw [readFile_removeFile_ne _ hne,
              readFile_writeFile_ne _ _ hne, hsrc] at hg
            cases hg
        · have hv' := Bool.eq_false_iff.mpr hv
          simp only [MoverService.physicalMove, hop, Bool.false_eq_true,
            if_false, hat', hv'] at hout
          have hfs2 := finishMove_fs _ _ _ _ _ _ _ _ _ hout
          by_cases hcl : cfg.moving.cleanup_quarantine_on_success
          · refine ⟨hcl, ?_⟩
            intro hverify
            have : (!(MoverService.verify_integrity
                ⟨dest, env.corrupt srcBytes⟩ h).1) = false := by
              rcases Bool.and_eq_false_iff.mp hv' with hc | hc
              · rw [hverify] at hc; cases hc
              · exact hc
            have hbeq : (MoverService.compute_file_hash
                ⟨dest, env.corrupt srcBytes⟩ == h) = true := by
              simpa [MoverService.verify_integrity] using this
            exact beq_iff_eq.mp hbeq
          · exfalso
            have hcl' : cfg.moving.cleanup_quarantine_on_success = false :=
              Bool.eq_false_iff.mpr hcl
            rw [hfs2, hcl'] at hgone
            simp only [Bool.false_eq_true, if_false] at hgone
            rw [readFile_writeFile_ne _ _ hne, hsrc] at hgone
            cases hgone

/-- Witness for C1: a copy whose destination is corrupted to the byte `0`
(first part), and a clean copy with cleanup enabled whose source is indeed
deleted only because verification passed (second part). -/
theorem c1_integrity_failure_no_data_loss_witness :
    ∃ out, MoverService.physicalMove
        { cfgBase with moving :=
          { cfgBase.moving with atomic_operations := false } }
        { envBase with corrupt := fun _ => [0] } uploadBase
        (sha256hex [1]) [1] "q/u1.epub" "lib/processed/book.epub" false
        [uploadBase] fsBase [] = .ok out ∧
      out.result.status = "integrity_failed" ∧
      out.fs.readFile "q/u1.epub" = some [1] ∧
      MoverService.compute_file_hash ⟨"lib/processed/book.epub", [1]⟩ =
        sha256hex [1] := by
  obtain ⟨out, hout⟩ : ∃ o, MoverService.physicalMove
      { cfgBase with moving :=
        { cfgBase.moving with atomic_operations := false } }
      { envBase with corrupt := fun _ => [0] } uploadBase
      (sha256hex [1]) [1] "q/u1.epub" "lib/processed/book.epub" false
      [uploadBase] fsBase [] = .ok o := ⟨_, rfl⟩
  have h1 := c1_integrity_failure_no_data_loss
    { cfgBase with moving :=
      { cfgBase.moving with atomic_operations := false } }
    { envBase with corrupt := fun _ => [0] } uploadBase
    (sha256hex [1]) [1] "q/u1.epub" "lib/processed/book.epub" false
    [uploadBase] fsBase [] out hout (by decide) (by decide)
  have h2 := h1.1 (by decide) rfl rfl (by decide)
  exact ⟨out, hout, h2.1, h2.2.2.2.2.2.1, by decide⟩

/-- Claim C8, counterexample. With atomic-mode enabled and source and
destination on the same (single) filesystem of the model but in different
directories, the claim demands one atomic rename — after which the
quarantine path would no longer exist.  The code instead compares the two
`Path.parent`s, falls into the copy branch, and (with cleanup disabled)
leaves the source file in place: the move observably diverges from a rename. -/
theorem c8_counterexample_parent_dir_not_filesystem :
    ∃ out, MoverService.move_file
        { cfgBase with moving :=
          { cfgBase.moving with
              cleanup_quarantine_on_success := false,
              verify_integrity_post_move := false } }
        envBase [uploadBase] fsBase [] "u1" = .ok out ∧
      out.result.status = "moved" ∧
      out.fs.readFile "q/u1.epub" = some [1] ∧
      out.fs.readFile "lib/processed/book.epub" = some [1] :=
  ⟨_, rfl, rfl, by decide, by decide⟩

/-- Claim C8, amended. The physical move is a single rename exactly when
atomic-mode is on and the source and destination have the *same parent
directory* (the code's stand-in for "same filesystem"); in that case the
destination ends up with the source's bytes and the source path is gone,
with no verification involved.  In every other case the file is copied, and
only then — after the integrity re-hash when verification is enabled — may
the quarantine source be deleted (and only under cleanup-on-success). -/
theorem c8_amended_atomic_vs_copy (cfg : Config) (env : Env) (u : Upload)
    (h : String) (srcBytes : List Nat) (src dest : String) (renamed : Bool)
    (db : List Upload) (fs : FS) (manifest : List ManifestEntry)
    (out : MoveOut)
    (hout : MoverService.physicalMove cfg env u h srcBytes src dest renamed
      db fs manifest = .ok out)
    (hsrc : fs.readFile src = some srcBytes)
    (hne : src ≠ dest) :
    (cfg.moving.atomic_operations = true →
      (parentDir src == parentDir dest) = true →
      env.moveOpFails = false →
      out.fs = (fs.removeFile src).writeFile dest srcBytes ∧
      out.result.status = "moved") ∧
    ((cfg.moving.atomic_operations &&
        (parentDir src == parentDir dest)) = false →
      env.moveOpFails = false →
      ((cfg.moving.verify_integrity_post_move = false ∨
          MoverService.compute_file_hash ⟨dest, env.corrupt srcBytes⟩ = h) →
        out.fs.readFile dest = some (env.corrupt srcBytes) ∧
        out.result.status = "moved" ∧
        out.fs.readFile src =
          (if cfg.moving.cleanup_quarantine_on_success then none
           else some srcBytes)) ∧
      (cfg.moving.verify_integrity_post_move = true →
        MoverService.compute_file_hash ⟨dest, env.corrupt srcBytes⟩ ≠ h →
        out.result.status = "integrity_failed" ∧
        out.fs.readFile src = some srcBytes ∧
        out.fs.readFile dest = none)) := by
  constructor
  · intro hatomic hpar hop
    have hat : (cfg.moving.atomic_operations &&
        (parentDir src == parentDir dest)) = true := by
      rw [hatomic, hpar]; rfl
    simp only [MoverService.physicalMove, hop, Bool.false_eq_true, if_false,
      hat, if_true] at hout
    exact ⟨finishMove_fs _ _ _ _ _ _ _ _ _ hout,
      finishMove_status _ _ _ _ _ _ _ _ _ hout⟩
  · intro hat' hop
    constructor
    · intro hok
      have hv' : (cfg.moving.verify_integrity_post_move &&
          !(MoverService.verify_integrity
            ⟨dest, env.corrupt srcBytes⟩ h).1) = false := by
        rcases hok with hok | hok
        · rw [hok]; rfl
        · have : (MoverService.compute_file_hash
              ⟨dest, env.corrupt srcBytes⟩ == h) = true := beq_iff_eq.mpr hok
          simp [MoverService.verify_integrity, this]
      simp only [MoverService.physicalMove, hop, Bool.false_eq_true,
        if_false, hat', hv'] at hout
      have hfs2 := finishMove_fs _ _ _ _ _ _ _ _ _ hout
      have hst2 := finishMove_status _ _ _ _ _ _ _ _ _ hout
      by_cases hcl : cfg.moving.cleanup_quarantine_on_success
      · rw [hcl] at hfs2
        simp only [if_true] at hfs2
        refine ⟨?_, hst2, ?_⟩
        · rw [hfs2, readFile_removeFile_ne _ (fun e => hne e.symm)]
          exact readFile_writeFile_same _ _ _
        · rw [hcl]
          simp only [if_true]
          rw [hfs2]
          exact readFile_removeFile_same _ _
      · have hcl' : cfg.moving.cleanup_quarantine_on_success = false :=
          Bool.eq_false_iff.mpr hcl
        rw [hcl'] at hfs2
        simp only [Bool.false_eq_true, if_false] at hfs2
        refine ⟨?_, hst2, ?_⟩
        · rw [hfs2]
          exact readFile_writeFile_same _ _ _
        · rw [hcl']
          simp only [Bool.false_eq_true, if_false]
          rw [hfs2, readFile_writeFile_ne _ _ hne]
          exact hsrc
    · intro hverify hmis
      have hv : (cfg.moving.verify_integrity_post_move &&
          !(MoverService.verify_integrity
            ⟨dest, env.corrupt srcBytes⟩ h).1) = true := by
        simp [MoverService.verify_integrity, hverify,
          beq_eq_false_iff_ne.mpr hmis]
      by_cases hcf : env.dbCommitFails
      · simp only [MoverService.physicalMove, hop, Bool.false_eq_true,
          if_false, hat', hv, if_true, hcf] at hout
        cases hout
      · have hcf' : env.dbCommitFails = false := Bool.eq_false_iff.mpr hcf
        simp only [MoverService.physicalMove, hop, Bool.false_eq_true,
          if_false, hat', hv, if_true, hcf'] at hout
        cases hout
        refine ⟨?_, ?_, ?_⟩
        · trivial
        · show ((fs.writeFile dest (env.corrupt srcBytes)).removeFile
            dest).readFile src = some srcBytes
          rw [readFile_removeFile_ne _ hne, readFile_writeFile_ne _ _ hne]
          exact hsrc
        · exact readFile_removeFile_same _ _

/-- Witness for the amended C8: a same-directory atomic rename, and a
cross-directory copy with verification and cleanup. -/
theorem c8_amended_atomic_vs_copy_witness :
    (∃ out, MoverService.physicalMove cfgBase envBase uploadBase
        (sha256hex [1]) [1] "d/a.epub" "d/b.epub" false [uploadBase]
        { files := [("d/a.epub", [1])], dirs := ["d"] } [] = .ok out ∧
      out.fs = FS.writeFile
        (FS.removeFile { files := [("d/a.epub", [1])], dirs := ["d"] }
          "d/a.epub") "d/b.epub" [1] ∧
      out.result.status = "moved") ∧
    (∃ out, MoverService.physicalMove
        { cfgBase with moving :=
          { cfgBase.moving with atomic_operations := false } }
        envBase uploadBase (sha256hex [1]) [1] "q/u1.epub"
        "lib/processed/book.epub" false [uploadBase] fsBase [] = .ok out ∧
      out.fs.readFile "lib/processed/book.epub" = some [1] ∧
      out.fs.readFile "q/u1.epub" = none) := by
  constructor
  · obtain ⟨out, hout⟩ : ∃ o, MoverService.physicalMove cfgBase envBase
        uploadBase (sha256hex [1]) [1] "d/a.epub" "d/b.epub" false
        [uploadBase] { files := [("d/a.epub", [1])], dirs := ["d"] } [] =
        .ok o := ⟨_, rfl⟩
    have ha := (c8_amended_atomic_vs_copy cfgBase envBase uploadBase
      (sha256hex [1]) [1] "d/a.epub" "d/b.epub" false [uploadBase]
      { files := [("d/a.epub", [1])], dirs := ["d"] } [] out hout
      (by decide) (by decide)).1 rfl (by decide) rfl
    exact ⟨out, hout, ha.1, ha.2⟩
  · obtain ⟨out, hout⟩ : ∃ o, MoverService.physicalMove
        { cfgBase with moving :=
          { cfgBase.moving with atomic_operations := false } }
        envBase uploadBase (sha256hex [1]) [1] "q/u1.epub"
        "lib/processed/book.epub" false [uploadBase] fsBase [] =
        .ok o := ⟨_, rfl⟩
    have hb := ((c8_amended_atomic_vs_copy
      { cfgBase with moving :=
        { cfgBase.moving with atomic_operations := false } }
      envBase uploadBase (sha256hex [1]) [1] "q/u1.epub"
      "lib/processed/book.epub" false [uploadBase] fsBase [] out hout
      (by decide) (by decide)).2 (by decide) rfl).1 (Or.inr (by decide))
    refine ⟨out, hout, hb.1, ?_⟩
    have := hb.2.2
    simpa using this

/-- Claim C2, counterexample. The claim's "never a name-conflict outcome" is
not unconditional.  (1) With the exact-duplicate discard policy disabled, a
record whose hash matches a kept record (`u0`) *and* whose title/author
match a different kept record (`u2`) is resolved as
`name_conflict_rename_disabled`.  (2) With two kept records sharing the
hash, the single-row duplicate lookup raises `MultipleResultsFound`, so no
exact-hash outcome is reported either. -/
theorem c2_counterexample_hash_priority_not_unconditional :
    (∃ out, MoverService.move_file
        { cfgBase with moving :=
          { cfgBase.moving with
              discard_on_exact_duplicate := false,
              rename_on_name_conflict := false } }
        envBase
        [{ uploadBase with
            metadata_json := some (some ⟨some "T", some "A"⟩) },
         { uploadBase with uuid := "u0", status := "moved" },
         { uploadBase with
            uuid := "u2", status := "moved",
            file_hash_sha256 := some (sha256hex [7]),
            metadata_json := some (some ⟨some "T", some "A"⟩) }]
        fsBase [] "u1" = .ok out ∧
      out.result.status = "duplicate_discarded" ∧
      out.result.duplicate_reason = some "name_conflict_rename_disabled") ∧
    MoverService.move_file cfgBase envBase
      [uploadBase, { uploadBase with uuid := "u0", status := "moved" },
       { uploadBase with uuid := "u2", status := "safe" }]
      fsBase [] "u1" = .error "MultipleResultsFound" :=
  ⟨⟨_, rfl, rfl, rfl⟩, rfl⟩

/-- Claim C2, amended. When the exact-duplicate discard policy is enabled
and the hash lookup is single-valued, the exact-hash duplicate outcomes do
take priority over any name conflict: a unique kept database row with the
same hash yields `exact_hash_match_database`, and — with no database match —
a filesystem hash match yields `exact_hash_match_filesystem`, regardless of
the record's title/author metadata. -/
theorem c2_amended_exact_hash_priority (cfg : Config) (env : Env)
    (db : List Upload) (fs : FS) (manifest : List ManifestEntry)
    (uuid : String) (u d : Upload) (h : String) (bs : List Nat)
    (hen : cfg.moving.enabled = true)
    (hfind : db.find? (fun v => v.uuid == uuid) = some u)
    (hstat : u.status = "metadata_verified" ∨ u.status = "safe" ∨
      u.status = "clean")
    (hread : fs.readFile u.quarantine_path = some bs)
    (hhash : u.file_hash_sha256 = some h)
    (hfetch : env.dbFetchFails = false)
    (hq : env.dbDupQueryFails = false)
    (hcm : env.dbCommitFails = false)
    (hmw : env.manifestWriteFails = false)
    (hdisc : cfg.moving.discard_on_exact_duplicate = true) :
    (MoverService.dupQuery h (some uuid) db = [d] →
      ∃ out, MoverService.move_file cfg env db fs manifest uuid = .ok out ∧
        out.result.status = "duplicate_discarded" ∧
        out.result.duplicate_reason = some "exact_hash_match_database") ∧
    (MoverService.dupQuery h (some uuid) db = [] →
      (MoverService.check_duplicates_in_filesystem h
        (MoverService.searchDirs cfg env) fs).1 = true →
      ∃ out, MoverService.move_file cfg env db fs manifest uuid = .ok out ∧
        out.result.status = "duplicate_discarded" ∧
        out.result.duplicate_reason = some "exact_hash_match_filesystem") := by
  have hgate : (u.status == "metadata_verified" || u.status == "safe" ||
      u.status == "clean") = true := by
    rcases hstat with h' | h' | h' <;> simp [h']
  constructor
  · intro hdup
    simp only [MoverService.move_file, hen, Bool.not_true,
      Bool.false_eq_true, if_false, hfetch, hfind, hgate, hread, hhash, hq,
      MoverService.check_duplicates_by_hash, hdup, hdisc, hcm,
      MoverService.write_to_manifest, hmw, Bool.and_false, Bool.and_self,
      if_true]
    exact ⟨_, rfl, rfl, rfl⟩
  · intro hdup hfs
    simp only [MoverService.move_file, MoverService.moveSteps2to7, hen,
      Bool.not_true, Bool.false_eq_true, if_false, hfetch, hfind, hgate,
      hread, hhash, hq, MoverService.check_duplicates_by_hash, hdup, hdisc,
      hfs, hcm, MoverService.write_to_manifest, hmw, Bool.and_false,
      Bool.false_and, Bool.and_self, if_true]
    exact ⟨_, rfl, rfl, rfl⟩

/-- Witness for the amended C2: the database-match branch on a concrete
store in which the moving record also has a title/author twin. -/
theorem c2_amended_exact_hash_priority_witness :
    ∃ out, MoverService.move_file cfgBase envBase
        [{ uploadBase with
            metadata_json := some (some ⟨some "T", some "A"⟩) },
         { uploadBase with uuid := "u0", status := "moved" },
         { uploadBase with
            uuid := "u2", status := "moved",
            file_hash_sha256 := some (sha256hex [7]),
            metadata_json := some (some ⟨some "T", some "A"⟩) }]
        fsBase [] "u1" = .ok out ∧
      out.result.status = "duplicate_discarded" ∧
      out.result.duplicate_reason = some "exact_hash_match_database" :=
  (c2_amended_exact_hash_priority cfgBase envBase
    [{ uploadBase with
        metadata_json := some (some ⟨some "T", some "A"⟩) },
     { uploadBase with uuid := "u0", status := "moved" },
     { uploadBase with
        uuid := "u2", status := "moved",
        file_hash_sha256 := some (sha256hex [7]),
        metadata_json := some (some ⟨some "T", some "A"⟩) }]
    fsBase [] "u1"
    { uploadBase with metadata_json := some (some ⟨some "T", some "A"⟩) }
    { uploadBase with uuid := "u0", status := "moved" }
    (sha256hex [1]) [1] rfl (by decide) (Or.inl rfl) (by decide) (by decide)
    rfl rfl rfl rfl rfl).1 (by decide)

/-- Claim C4, counterexample. Two of the claim's conjuncts fail as stated:
(1) with the checksum manifest disabled, the discard writes *no* manifest
entry; (2) when the hash matches *two* kept records, the single-row lookup
raises `MultipleResultsFound` instead of discarding. -/
theorem c4_counterexample_manifest_and_multiplicity :
    (∃ out, MoverService.move_file
        { cfgBase with moving :=
          { cfgBase.moving with checksum_manifest := false } }
        envBase
        [uploadBase, { uploadBase with uuid := "u0", status := "moved" }]
        fsBase [] "u1" = .ok out ∧
      out.result.status = "duplicate_discarded" ∧
      out.result.duplicate_reason = some "exact_hash_match_database" ∧
      out.manifest = []) ∧
    MoverService.move_file cfgBase envBase
      [uploadBase, { uploadBase with uuid := "u0", status := "moved" },
       { uploadBase with uuid := "u2", status := "safe" }]
      fsBase [] "u1" = .error "MultipleResultsFound" :=
  ⟨⟨_, rfl, rfl, rfl, rfl⟩, rfl⟩

/-- Claim C4, amended. For a record whose hash matches exactly one other
kept record, with the discard policy and the checksum manifest enabled, the
move sets `status=duplicate_discarded`, `is_duplicate=true`,
`duplicate_of=<match id>`, `duplicate_reason=exact_hash_match_database`,
appends a manifest row with action `discarded`, returns failure with that
reason, and touches no physical file: the filesystem is unchanged, the
source still in quarantine. -/
theorem c4_amended_db_duplicate_discard (cfg : Config) (env : Env)
    (db : List Upload) (fs : FS) (manifest : List ManifestEntry)
    (uuid : String) (u d : Upload) (h : String) (bs : List Nat)
    (hen : cfg.moving.enabled = true)
    (hfind : db.find? (fun v => v.uuid == uuid) = some u)
    (hstat : u.status = "metadata_verified" ∨ u.status = "safe" ∨
      u.status = "clean")
    (hread : fs.readFile u.quarantine_path = some bs)
    (hhash : u.file_hash_sha256 = some h)
    (hfetch : env.dbFetchFails = false)
    (hq : env.dbDupQueryFails = false)
    (hcm : env.dbCommitFails = false)
    (hmw : env.manifestWriteFails = false)
    (hdisc : cfg.moving.discard_on_exact_duplicate = true)
    (hman : cfg.moving.checksum_manifest = true)
    (hdup : MoverService.dupQuery h (some uuid) db = [d]) :
    ∃ out, MoverService.move_file cfg env db fs manifest uuid = .ok out ∧
      out.result.success = false ∧
      out.result.status = "duplicate_discarded" ∧
      out.result.duplicate_of = some d.uuid ∧
      out.result.duplicate_reason = some "exact_hash_match_database" ∧
      out.fs = fs ∧
      out.db = updateRecord db uuid (fun v =>
        { v with
          status := "duplicate_discarded",
          is_duplicate := true,
          duplicate_of := some d.uuid,
          duplicate_reason := some "exact_hash_match_database" }) ∧
      out.manifest = manifest ++
        [{ timestamp := env.nowStr, uuid := u.uuid,
           original_filename := u.original_filename,
           destination_path := "N/A", file_hash := some h,
           file_size := u.file_size, action := "discarded",
           reason := "exact_hash_match_database" }] := by
  have hgate : (u.status == "metadata_verified" || u.status == "safe" ||
      u.status == "clean") = true := by
    rcases hstat with h' | h' | h' <;> simp [h']
  simp only [MoverService.move_file, hen, Bool.not_true, Bool.false_eq_true,
    if_false, hfetch, hfind, hgate, hread, hhash, hq,
    MoverService.check_duplicates_by_hash, hdup, hdisc, Bool.and_self,
    if_true, hcm, MoverService.write_to_manifest, hmw, Bool.and_false,
    hman]
  exact ⟨_, rfl, rfl, rfl, rfl, rfl, rfl, rfl, rfl⟩

/-- Witness for the amended C4 on a concrete two-record store. -/
theorem c4_amended_db_duplicate_discard_witness :
    ∃ out, MoverService.move_file cfgBase envBase
        [uploadBase, { uploadBase with uuid := "u0", status := "moved" }]
        fsBase [] "u1" = .ok out ∧
      out.result.success = false ∧
      out.result.status = "duplicate_discarded" ∧
      out.result.duplicate_of = some "u0" ∧
      out.result.duplicate_reason = some "exact_hash_match_database" ∧
      out.fs = fsBase ∧
      out.db = updateRecord
        [uploadBase, { uploadBase with uuid := "u0", status := "moved" }]
        "u1" (fun v =>
        { v with
          status := "duplicate_discarded",
          is_duplicate := true,
          duplicate_of := some "u0",
          duplicate_reason := some "exact_hash_match_database" }) ∧
      out.manifest =
        [{ timestamp := envBase.nowStr, uuid := "u1",
           original_filename := "book.epub", destination_path := "N/A",
           file_hash := some (sha256hex [1]), file_size := 1,
           action := "discarded",
           reason := "exact_hash_match_database" }] :=
  c4_amended_db_duplicate_discard cfgBase envBase
    [uploadBase, { uploadBase with uuid := "u0", status := "moved" }]
    fsBase [] "u1" uploadBase
    { uploadBase with uuid := "u0", status := "moved" }
    (sha256hex [1]) [1] rfl (by decide) (Or.inl rfl) (by decide) (by decide)
    rfl rfl rfl rfl rfl rfl (by decide)

/-- Claim C10. The name-conflict check reports no conflict whenever the
trimmed title or the trimmed author of the record's metadata is empty (or
the key is missing); and whenever it does report a conflict, both trimmed
fields are non-empty and the reported record is a kept record of the store
whose own stripped, lowercased title and author match case-insensitively. -/
theorem c10_name_conflict_needs_title_and_author
    (metadata : Meta) (db : List Upload) (excl : Option String) :
    (pyStrip (metadata.title.getD "") = "" ∨
       pyStrip (metadata.author.getD "") = "" →
      MoverService.check_name_conflict metadata db excl = (false, none)) ∧
    (∀ u,
      MoverService.check_name_conflict metadata db excl = (true, some u) →
      pyStrip (metadata.title.getD "") ≠ "" ∧
      pyStrip (metadata.author.getD "") ≠ "" ∧
      u ∈ db ∧ keptStatus u.status = true ∧
      MoverService.nameMatches (pyStrip (metadata.title.getD ""))
        (pyStrip (metadata.author.getD "")) u = true) := by
  constructor
  · intro h
    rcases h with h | h <;>
      simp [MoverService.check_name_conflict, h]
  · intro u hu
    unfold MoverService.check_name_conflict at hu
    by_cases ht : pyStrip (metadata.title.getD "") = ""
    · simp [ht] at hu
    by_cases ha : pyStrip (metadata.author.getD "") = ""
    · simp [ha] at hu
    refine ⟨ht, ha, ?_⟩
    have hbt : (pyStrip (metadata.title.getD "") == "") = false :=
      beq_eq_false_iff_ne.mpr ht
    have hba : (pyStrip (metadata.author.getD "") == "") = false :=
      beq_eq_false_iff_ne.mpr ha
    simp only [hbt, hba, Bool.or_self, Bool.false_or, if_false] at hu
    cases hfind : (db.filter (fun v =>
        keptStatus v.status && v.metadata_json.isSome &&
        excludeOk excl v)).find?
        (MoverService.nameMatches (pyStrip (metadata.title.getD ""))
          (pyStrip (metadata.author.getD ""))) with
    | none => rw [hfind] at hu; simp at hu
    | some v =>
      rw [hfind] at hu
      simp only [Prod.mk.injEq, Option.some.injEq] at hu
      obtain ⟨-, rfl⟩ := hu
      have hmem := List.mem_of_find?_eq_some hfind
      have hpred := List.find?_some hfind
      have hmem' := List.mem_filter.1 hmem
      refine ⟨hmem'.1, ?_, hpred⟩
      have := hmem'.2
      simp only [Bool.and_eq_true] at this
      exact this.1.1

/-- Witness for C10: an empty (whitespace-only) title yields no conflict;
a store row with matching title/author, up to case and surrounding
whitespace, is reported as a conflict with both fields non-empty. -/
theorem c10_name_conflict_needs_title_and_author_witness :
    MoverService.check_name_conflict ⟨some " ", some "A"⟩ [uploadBase]
      none = (false, none) ∧
    (pyStrip ((⟨some "T", some "A"⟩ : Meta).title.getD "") ≠ "" ∧
     pyStrip ((⟨some "T", some "A"⟩ : Meta).author.getD "") ≠ "" ∧
     { uploadBase with
        uuid := "u9", status := "moved",
        metadata_json := some (some ⟨some " t ", some "a"⟩) } ∈
       [{ uploadBase with
           uuid := "u9", status := "moved",
           metadata_json := some (some ⟨some " t ", some "a"⟩) }] ∧
     keptStatus ({ uploadBase with
        uuid := "u9", status := "moved",
        metadata_json := some (some ⟨some " t ", some "a"⟩) } :
          Upload).status = true ∧
     MoverService.nameMatches
       (pyStrip ((⟨some "T", some "A"⟩ : Meta).title.getD ""))
       (pyStrip ((⟨some "T", some "A"⟩ : Meta).author.getD ""))
       { uploadBase with
          uuid := "u9", status := "moved",
          metadata_json := some (some ⟨some " t ", some "a"⟩) } = true) :=
  ⟨(c10_name_conflict_needs_title_and_author ⟨some " ", some "A"⟩
      [uploadBase] none).1 (Or.inl (by decide)),
   (c10_name_conflict_needs_title_and_author ⟨some "T", some "A"⟩
      [{ uploadBase with
          uuid := "u9", status := "moved",
          metadata_json := some (some ⟨some " t ", some "a"⟩) }] none).2
     { uploadBase with
        uuid := "u9", status := "moved",
        metadata_json := some (some ⟨some " t ", some "a"⟩) }
     (by decide)⟩

/-- Claim C3, counterexample. The claim's verified set is
`{metadata_verified, safe}`, but a record in status `"clean"` is *not*
rejected with `invalid_state`: with dry-run enabled the move proceeds all
the way to the `dry_run` outcome. -/
theorem c3_counterexample_clean_status_accepted :
    (MoverService.move_file
        { cfgBase with moving := { cfgBase.moving with dry_run := true } }
        envBase [{ uploadBase with status := "clean" }] fsBase []
        "u1").map (fun o => o.result.status) = Except.ok "dry_run" := by
  exact rfl

/-- Claim C3, amended. The four preconditions are checked in order, each
failing with its distinct machine-readable status — moving disabled ↦
`disabled`; record not found ↦ `not_found`; record status not in the
verified set `{metadata_verified, safe, clean}` ↦ `invalid_state`; source
file absent ↦ `source_missing` — and each failure leaves the record table,
the filesystem and the manifest unchanged.  (The code's verified set also
contains `"clean"`, which the claim omits.) -/
theorem c3_amended_precondition_gates (cfg : Config) (env : Env)
    (db : List Upload) (fs : FS) (manifest : List ManifestEntry)
    (uuid : String) :
    (cfg.moving.enabled = false →
      ∃ out, MoverService.move_file cfg env db fs manifest uuid = .ok out ∧
        out.result.status = "disabled" ∧ out.result.success = false ∧
        out.db = db ∧ out.fs = fs ∧ out.manifest = manifest) ∧
    (cfg.moving.enabled = true →
      env.dbFetchFails = false →
      db.find? (fun u => u.uuid == uuid) = none →
      ∃ out, MoverService.move_file cfg env db fs manifest uuid = .ok out ∧
        out.result.status = "not_found" ∧ out.result.success = false ∧
        out.db = db ∧ out.fs = fs ∧ out.manifest = manifest) ∧
    (∀ u, cfg.moving.enabled = true →
      env.dbFetchFails = false →
      db.find? (fun v => v.uuid == uuid) = some u →
      u.status ≠ "metadata_verified" → u.status ≠ "safe" →
      u.status ≠ "clean" →
      ∃ out, MoverService.move_file cfg env db fs manifest uuid = .ok out ∧
        out.result.status = "invalid_state" ∧ out.result.success = false ∧
        out.db = db ∧ out.fs = fs ∧ out.manifest = manifest) ∧
    (∀ u, cfg.moving.enabled = true →
      env.dbFetchFails = false →
      db.find? (fun v => v.uuid == uuid) = some u →
      (u.status = "metadata_verified" ∨ u.status = "safe" ∨
        u.status = "clean") →
      fs.readFile u.quarantine_path = none →
      ∃ out, MoverService.move_file cfg env db fs manifest uuid = .ok out ∧
        out.result.status = "source_missing" ∧ out.result.success = false ∧
        out.db = db ∧ out.fs = fs ∧ out.manifest = manifest) := by
  refine ⟨?_, ?_, ?_, ?_⟩
  · intro hen
    simp only [MoverService.move_file, hen, Bool.not_false, if_true]
    exact ⟨_, rfl, rfl, rfl, rfl, rfl, rfl⟩
  · intro hen hfetch hfind
    simp only [MoverService.move_file, hen, hfetch, hfind, Bool.not_true,
      Bool.false_eq_true, if_false]
    exact ⟨_, rfl, rfl, rfl, rfl, rfl, rfl⟩
  · intro u hen hfetch hfind h1 h2 h3
    simp only [MoverService.move_file, hen, hfetch, hfind, Bool.not_true,
      Bool.false_eq_true, if_false, beq_eq_false_iff_ne.mpr h1,
      beq_eq_false_iff_ne.mpr h2, beq_eq_false_iff_ne.mpr h3,
      Bool.or_self, Bool.or_false, Bool.not_false, if_true]
    exact ⟨_, rfl, rfl, rfl, rfl, rfl, rfl⟩
  · intro u hen hfetch hfind hst hread
    have hgate : (u.status == "metadata_verified" || u.status == "safe" ||
        u.status == "clean") = true := by
      rcases hst with h | h | h <;> simp [h]
    simp only [MoverService.move_file, hen, hfetch, hfind, hgate,
      Bool.not_true, Bool.false_eq_true, if_false, hread]
    exact ⟨_, rfl, rfl, rfl, rfl, rfl, rfl⟩

/-- Witness for C3: the four precondition failures observed on concrete
states (disabled config; empty table; a `quarantined` record; a verified
record whose quarantine file is missing). -/
theorem c3_amended_precondition_gates_witness :
    (∃ out, MoverService.move_file
        { cfgBase with moving := { cfgBase.moving with enabled := false } }
        envBase [] fsBase [] "u1" = .ok out ∧
        out.result.status = "disabled" ∧ out.result.success = false ∧
        out.db = [] ∧ out.fs = fsBase ∧ out.manifest = []) ∧
    (∃ out, MoverService.move_file cfgBase envBase [] fsBase [] "u1" =
        .ok out ∧
        out.result.status = "not_found" ∧ out.result.success = false ∧
        out.db = [] ∧ out.fs = fsBase ∧ out.manifest = []) ∧
    (∃ out, MoverService.move_file cfgBase envBase
        [{ uploadBase with status := "quarantined" }] fsBase [] "u1" =
        .ok out ∧
        out.result.status = "invalid_state" ∧ out.result.success = false ∧
        out.db = [{ uploadBase with status := "quarantined" }] ∧
        out.fs = fsBase ∧ out.manifest = []) ∧
    (∃ out, MoverService.move_file cfgBase envBase [uploadBase]
        { files := [], dirs := [] } [] "u1" = .ok out ∧
        out.result.status = "source_missing" ∧ out.result.success = false ∧
        out.db = [uploadBase] ∧ out.fs = { files := [], dirs := [] } ∧
        out.manifest = []) :=
  ⟨(c3_amended_precondition_gates _ envBase [] fsBase [] "u1").1 rfl,
   (c3_amended_precondition_gates cfgBase envBase [] fsBase [] "u1").2.1
     rfl rfl rfl,
   (c3_amended_precondition_gates cfgBase envBase _ fsBase [] "u1").2.2.1
     { uploadBase with status := "quarantined" } rfl rfl rfl
     (by decide) (by decide) (by decide),
   (c3_amended_precondition_gates cfgBase envBase [uploadBase]
       { files := [], dirs := [] } [] "u1").2.2.2 uploadBase rfl rfl rfl
     (Or.inl rfl) rfl⟩

/-- Claim C9, counterexample. The dry-run path is not entirely free of
filesystem effects: the destination directory `unsorted/processed` is
created (lines 477–485 run before the dry-run check), so the directory set
changes even though no file is touched and the row keeps its status. -/
theorem c9_counterexample_dry_run_creates_directory :
    ∃ out, MoverService.move_file
        { cfgBase with moving := { cfgBase.moving with dry_run := true } }
        envBase [uploadBase] fsBase [] "u1" = .ok out ∧
      out.result.status = "dry_run" ∧
      out.fs.dirs ≠ fsBase.dirs ∧
      out.fs.dirs = ["q", "lib", "lib/processed"] :=
  ⟨_, rfl, rfl, by decide, rfl⟩

/-- Claim C9, amended. A dry-run move on a record that passes the
preconditions and the duplicate checks reports the would-be source path,
destination path and renamed flag, creates no file and deletes none (the
file map is unchanged — only the destination *directory* is created), and
leaves the manifest and the terminal fields of every record row untouched.
The one row change a dry run may commit is the pre-existing hash backfill:
a record whose `file_hash_sha256` column is NULL has it computed and
committed at lines 318–320, before the dry-run check at line 497. -/
theorem c9_amended_dry_run_reports_without_touching (cfg : Config)
    (env : Env) (db : List Upload) (fs : FS) (manifest : List ManifestEntry)
    (uuid : String) (u : Upload) (bs : List Nat)
    (hen : cfg.moving.enabled = true)
    (hfetch : env.dbFetchFails = false)
    (hfind : db.find? (fun v => v.uuid == uuid) = some u)
    (hstat : u.status = "metadata_verified" ∨ u.status = "safe" ∨
      u.status = "clean")
    (hread : fs.readFile u.quarantine_path = some bs)
    (hhr : env.hashReadFails = false)
    (hcm : env.dbCommitFails = false)
    (hq : env.dbDupQueryFails = false)
    (hnq : env.dbNameQueryFails = false)
    (hmk : env.mkdirFails = false)
    (hdup : MoverService.dupQuery (effectiveFileHash u bs) (some uuid) db =
      [])
    (hfs : (MoverService.check_duplicates_in_filesystem
      (effectiveFileHash u bs) (MoverService.searchDirs cfg env) fs).1 =
      false)
    (hconf : (MoverService.check_name_conflict (MoverService.parsedMetadata
      u) db (some uuid)).1 = true →
      cfg.moving.rename_on_name_conflict = true)
    (hdry : cfg.moving.dry_run = true) :
    ∃ out, MoverService.move_file cfg env db fs manifest uuid = .ok out ∧
      out.result.status = "dry_run" ∧
      out.result.success = true ∧
      out.result.source = some u.quarantine_path ∧
      out.result.destination = some (MoverService.resolveDestination
        (fs.mkdirParents (cfg.moving.unsorted_dir ++ "/processed"))
        (cfg.moving.unsorted_dir ++ "/processed")
        (if (MoverService.check_name_conflict (MoverService.parsedMetadata
              u) db (some uuid)).1 &&
            cfg.moving.rename_on_name_conflict then
          MoverService.generate_renamed_filename
            (MoverService.parsedMetadata u) u.file_extension
            cfg.moving.rename_pattern env.nowStr
         else u.original_filename)) ∧
      out.result.renamed = some
        ((MoverService.check_name_conflict (MoverService.parsedMetadata u)
          db (some uuid)).1 && cfg.moving.rename_on_name_conflict) ∧
      out.fs.files = fs.files ∧
      out.manifest = manifest ∧
      out.db.map terminalFields = db.map terminalFields ∧
      out.db = (match u.file_hash_sha256 with
        | some _ => db
        | none => updateRecord db uuid (fun v =>
            { v with file_hash_sha256 := some (MoverService.compute_file_hash ⟨u.quarantine_path, bs⟩) })) := by
  have hgate : (u.status == "metadata_verified" || u.status == "safe" ||
      u.status == "clean") = true := by
    rcases hstat with h' | h' | h' <;> simp [h']
  have hnc : ((MoverService.check_name_conflict
      (MoverService.parsedMetadata u) db (some uuid)).1 &&
      !cfg.moving.rename_on_name_conflict) = false := by
    cases hc : (MoverService.check_name_conflict
        (MoverService.parsedMetadata u) db (some uuid)).1
    · rfl
    · rw [hconf hc]
      rfl
  cases hh : u.file_hash_sha256 with
  | some h0 =>
    have heff : effectiveFileHash u bs = h0 := by
      simp [effectiveFileHash, hh]
    rw [heff] at hdup hfs
    simp only [MoverService.move_file, MoverService.moveSteps2to7, hen,
      Bool.not_true, Bool.false_eq_true, if_false, hfetch, hfind, hgate,
      hread, hh, hq, MoverService.check_duplicates_by_hash, hdup,
      Bool.false_and, hfs, hnq, hnc, hmk, hdry, if_true]
    exact ⟨_, rfl, rfl, rfl, rfl, rfl, rfl, rfl, rfl, rfl, rfl⟩
  | none =>
    have heff : effectiveFileHash u bs =
        MoverService.compute_file_hash ⟨u.quarantine_path, bs⟩ := by
      simp [effectiveFileHash, hh]
    rw [heff] at hdup hfs
    have hdup1 := dupQuery_updateRecord_self
      (MoverService.compute_file_hash ⟨u.quarantine_path, bs⟩) uuid db
      (fun v => { v with file_hash_sha256 := some (MoverService.compute_file_hash ⟨u.quarantine_path, bs⟩) })
      (fun v => rfl)
    rw [hdup] at hdup1
    have hpm : MoverService.parsedMetadata { u with file_hash_sha256 := some (MoverService.compute_file_hash ⟨u.quarantine_path, bs⟩) } =
        MoverService.parsedMetadata u := rfl
    have htr := nameConflict_updateRecord_self
      (MoverService.parsedMetadata u) uuid db
      (fun v => { v with file_hash_sha256 := some (MoverService.compute_file_hash ⟨u.quarantine_path, bs⟩) })
      (fun v => rfl)
    have hterm := terminalFields_updateRecord db uuid
      (fun v => { v with file_hash_sha256 := some (MoverService.compute_file_hash ⟨u.quarantine_path, bs⟩) })
      (fun v => rfl)
    simp only [MoverService.move_file, MoverService.moveSteps2to7, hen,
      Bool.not_true, Bool.false_eq_true, if_false, hfetch, hfind, hgate,
      hread, hh, hhr, hcm, hq, MoverService.check_duplicates_by_hash,
      hdup1, Bool.false_and, hfs, hnq, hpm, htr, hnc, hmk, hdry, if_true]
    exact ⟨_, rfl, rfl, rfl, rfl, rfl, rfl, rfl, rfl, hterm, rfl⟩

/-- Witness for the amended C9, on a record whose hash column is still NULL:
the dry run reports, the file map and manifest stay fixed, every row keeps
its terminal fields, and the one committed change is the hash backfill. -/
theorem c9_amended_dry_run_reports_without_touching_witness :
    ∃ out, MoverService.move_file
        { cfgBase with moving := { cfgBase.moving with dry_run := true } }
        envBase [{ uploadBase with file_hash_sha256 := none }] fsBase []
        "u1" = .ok out ∧
      out.result.status = "dry_run" ∧
      out.result.success = true ∧
      out.result.source = some "q/u1.epub" ∧
      out.fs.files = fsBase.files ∧
      out.manifest = [] ∧
      out.db.map terminalFields =
        [{ uploadBase with file_hash_sha256 := none }].map terminalFields ∧
      out.db = updateRecord [{ uploadBase with file_hash_sha256 := none }]
        "u1" (fun v => { v with file_hash_sha256 := some (MoverService.compute_file_hash ⟨"q/u1.epub", [1]⟩) }) := by
  obtain ⟨out, h1, h2, h3, h4, -, -, h7, h8, h9, h10⟩ :=
    c9_amended_dry_run_reports_without_touching
      { cfgBase with moving := { cfgBase.moving with dry_run := true } }
      envBase [{ uploadBase with file_hash_sha256 := none }] fsBase []
      "u1" { uploadBase with file_hash_sha256 := none } [1]
      rfl rfl (by decide) (Or.inl rfl) (by decide) rfl rfl rfl rfl rfl
      (by decide) (by decide) (by decide) rfl
  exact ⟨out, h1, h2, h3, h4, h7, h8, h9, h10⟩

/-- Claim C7, counterexample. Not every expected failure mode yields a
structured result: several operations of `move_file` run outside the `try`
block that starts at line 518, and their failures escape as exceptions
(the route handler then turns them into a generic 500, not a Mover
status).  Four concrete escapes: the NULL-hash recomputation at line 319
raising an I/O error; the record-fetch query at line 288 raising; the
discard-branch commit at line 345 raising after an exact database
duplicate was found; and the destination `mkdir` at line 479 raising on a
move that passed every check. -/
theorem c7_counterexample_unguarded_failures_escape :
    MoverService.move_file cfgBase { envBase with hashReadFails := true }
      [{ uploadBase with file_hash_sha256 := none }] fsBase [] "u1" =
      .error "OSError while hashing source" ∧
    MoverService.move_file cfgBase { envBase with dbFetchFails := true }
      [uploadBase] fsBase [] "u1" =
      .error "OperationalError in record fetch" ∧
    MoverService.move_file cfgBase { envBase with dbCommitFails := true }
      [uploadBase, { uploadBase with uuid := "u0", status := "moved" }]
      fsBase [] "u1" = .error "OperationalError on commit" ∧
    MoverService.move_file cfgBase { envBase with mkdirFails := true }
      [uploadBase] fsBase [] "u1" = .error "OSError in mkdir" :=
  ⟨rfl, rfl, rfl, rfl⟩

/-- Claim C7, amended. Failures raised inside the STEP 5 `try` block
(lines 518–589) are caught and converted into a structured `move_failed`
result — but the operations outside that block escape `move_file` as
exceptions: the record-fetch query, the NULL-hash backfill (both the read
and its commit), the duplicate query (which also raises on multiple
matching rows), the discard-branch commits and manifest writes, the
name-conflict query, the destination `mkdir`, and the post-move commit and
manifest write.  Provided all of those succeed — and the duplicate query
returns at most one row — `move_file` always returns a structured result,
for every input and every outcome of the guarded physical-move step,
including copy failures and integrity mismatches. -/
theorem c7_amended_structured_result (cfg : Config) (env : Env)
    (db : List Upload) (fs : FS) (manifest : List ManifestEntry)
    (uuid : String)
    (h0 : env.dbFetchFails = false)
    (h1 : env.hashReadFails = false)
    (h2 : env.dbDupQueryFails = false)
    (h4 : env.dbCommitFails = false)
    (h5 : env.dbNameQueryFails = false)
    (h6 : env.manifestWriteFails = false)
    (h7 : env.mkdirFails = false)
    (h3 : ∀ u, db.find? (fun v => v.uuid == uuid) = some u →
      (MoverService.dupQuery
        (effectiveFileHash u ((fs.readFile u.quarantine_path).getD []))
        (some uuid) db).length ≤ 1) :
    ∃ out, MoverService.move_file cfg env db fs manifest uuid = .ok out := by
  cases hen : cfg.moving.enabled with
  | false => exact ⟨_, by (simp [MoverService.move_file, hen]; rfl)⟩
  | true =>
  cases hfind : db.find? (fun v => v.uuid == uuid) with
  | none =>
    exact ⟨_, by (simp [MoverService.move_file, hen, h0, hfind]; rfl)⟩
  | some u =>
  cases hg : (u.status == "metadata_verified" || u.status == "safe" ||
      u.status == "clean") with
  | false =>
    exact ⟨_, by (simp [MoverService.move_file, hen, h0, hfind, hg]; rfl)⟩
  | true =>
  cases hread : fs.readFile u.quarantine_path with
  | none =>
    exact ⟨_, by
      (simp [MoverService.move_file, hen, h0, hfind, hg, hread]; rfl)⟩
  | some bs =>
  have hlen := h3 u hfind
  rw [hread] at hlen
  simp only [Option.getD_some] at hlen
  cases hh : u.file_hash_sha256 with
  | some h9 =>
    have hlen' : (MoverService.dupQuery h9 (some uuid) db).length ≤ 1 := by
      simpa [effectiveFileHash, hh] using hlen
    rcases hdq : MoverService.dupQuery h9 (some uuid) db with
      _ | ⟨d, _ | ⟨d2, r⟩⟩
    · simp only [MoverService.move_file, hen, Bool.not_true,
        Bool.false_eq_true, if_false, h0, hfind, hg, hread, hh, h2,
        MoverService.check_duplicates_by_hash, hdq, Bool.false_and]
      exact moveSteps2to7_ok _ _ _ _ _ _ _ _ _ h4 h6 h5 h7
    · cases hdisc : cfg.moving.discard_on_exact_duplicate with
      | true =>
        simp only [MoverService.move_file, hen, Bool.not_true,
          Bool.false_eq_true, if_false, h0, hfind, hg, hread, hh, h2,
          MoverService.check_duplicates_by_hash, hdq, hdisc, h4,
          MoverService.write_to_manifest, h6, Bool.and_false,
          Bool.and_self, if_true]
        exact ⟨_, rfl⟩
      | false =>
        simp only [MoverService.move_file, hen, Bool.not_true,
          Bool.false_eq_true, if_false, h0, hfind, hg, hread, hh, h2,
          MoverService.check_duplicates_by_hash, hdq, hdisc,
          Bool.and_false]
        exact moveSteps2to7_ok _ _ _ _ _ _ _ _ _ h4 h6 h5 h7
    · rw [hdq] at hlen'
      simp at hlen'
  | none =>
    have hch : effectiveFileHash u bs =
        MoverService.compute_file_hash ⟨u.quarantine_path, bs⟩ := by
      simp [effectiveFileHash, hh]
    have hupd := dupQuery_updateRecord_self
      (MoverService.compute_file_hash ⟨u.quarantine_path, bs⟩) uuid db
      (fun v => { v with file_hash_sha256 := some (MoverService.compute_file_hash ⟨u.quarantine_path, bs⟩) })
      (fun v => rfl)
    have hlen' : (MoverService.dupQuery
        (MoverService.compute_file_hash ⟨u.quarantine_path, bs⟩)
        (some uuid) db).length ≤ 1 := by
      rw [← hch]
      exact hlen
    rcases hdq : MoverService.dupQuery
        (MoverService.compute_file_hash ⟨u.quarantine_path, bs⟩)
        (some uuid) db with _ | ⟨d, _ | ⟨d2, r⟩⟩
    · simp only [MoverService.move_file, hen, Bool.not_true,
        Bool.false_eq_true, if_false, h0, hfind, hg, hread, hh, h1, h4, h2,
        MoverService.check_duplicates_by_hash, hupd, hdq, Bool.false_and]
      exact moveSteps2to7_ok _ _ _ _ _ _ _ _ _ h4 h6 h5 h7
    · cases hdisc : cfg.moving.discard_on_exact_duplicate with
      | true =>
        simp only [MoverService.move_file, hen, Bool.not_true,
          Bool.false_eq_true, if_false, h0, hfind, hg, hread, hh, h1, h4,
          h2, MoverService.check_duplicates_by_hash, hupd, hdq, hdisc,
          MoverService.write_to_manifest, h6, Bool.and_false,
          Bool.and_self, if_true]
        exact ⟨_, rfl⟩
      | false =>
        simp only [MoverService.move_file, hen, Bool.not_true,
          Bool.false_eq_true, if_false, h0, hfind, hg, hread, hh, h1, h4,
          h2, MoverService.check_duplicates_by_hash, hupd, hdq, hdisc,
          Bool.and_false]
        exact moveSteps2to7_ok _ _ _ _ _ _ _ _ _ h4 h6 h5 h7
    · rw [hdq] at hlen'
      simp at hlen'

/-- Witness for the amended C7: a record with a NULL hash column and a
corrupting copy plus a failing physical move still produce a structured
`move_failed` result. -/
theorem c7_amended_structured_result_witness :
    ∃ out, MoverService.move_file cfgBase
        { envBase with corrupt := fun _ => [0], moveOpFails := true }
        [{ uploadBase with file_hash_sha256 := none }] fsBase [] "u1" =
      .ok out :=
  c7_amended_structured_result cfgBase
    { envBase with corrupt := fun _ => [0], moveOpFails := true }
    [{ uploadBase with file_hash_sha256 := none }] fsBase [] "u1" rfl rfl
    rfl rfl rfl rfl rfl
    (by
      intro u hu
      obtain ⟨-, hu'⟩ :
          uploadBase.uuid = "u1" ∧
            u = { uploadBase with file_hash_sha256 := none } := by
        simpa using hu.symm
      subst hu'
      decide)

end KavitaUploader
